import Mathlib

/-
Verification development for the SkyGuard drone-swarm engine
(src/components/DroneSimulation.tsx).

Modelling conventions, chosen to keep every definition executable and exact:

* Coordinates and health are rationals.  The source compares Euclidean
  distances (computed with Math.sqrt) against non-negative thresholds; since
  the square root is monotone, every comparison `sqrt d ⋈ R` is embedded as
  the exactly equivalent `d ⋈ R * R` on squared distances.
* Where the numeric value of a square root is itself consumed (the moveTo
  displacement, the flocking separation force, and the inverse-distance bonus
  in the threat score), `ratSqrt` is used: it returns the exact rational
  square root whenever one exists.  All concrete evaluations below take place
  at configurations whose relevant distances are squares of rationals, where
  ratSqrt coincides with the real square root; no theorem in this file
  depends on the value of ratSqrt at other points, only on elementary bounds
  proved about it.
* JavaScript object identity (the `friend !== this` and
  `friend.target === hostile` tests) is embedded as list-index inequality
  inside one pass and as id equality for target references; drone ids are
  unique per allegiance and never reused during a run.
* Math.random() is embedded as an oracle `rng : Nat -> Rat` together with a
  consumption index threaded through the state; Date.now() as a per-tick
  rational `now`.  The transcendental circle-formation geometry (atan2, cos,
  sin) is embedded as an oracle structure; no claim touches its values.
* Cosmetic particles are carried in full (positions, velocity, life, size,
  color) so that particle-collection (un)changedness is meaningful.
* The sequential in-place mutation of the entity arrays is embedded by
  threading a SimState through index-based folds; the slot of the drone
  being updated is written back after each mutation of `this`, matching the
  aliasing of the source where `this` is an element of the array it reads.
-/

namespace SkyGuard

/-- Drone category, the source union 'drone' | 'bomber' ('drone' is the interceptor). -/
inductive DKind where
  | drone
  | bomber
deriving DecidableEq, Repr

/-- Formation identifiers from the source FormationType union. -/
inductive FormationType where
  | circle
  | arrowhead
  | spearhead
  | doubleFile
  | extendedLine
deriving DecidableEq, Repr

def THREATENING_RANGE : ℚ := 150
def FIRING_RANGE : ℚ := 50
def JAMMING_RANGE : ℚ := 100
def DRONE_SPEED : ℚ := 2
def BOMBER_SPEED : ℚ := 1.2
def HOSTILE_SPEED : ℚ := 1.5

/-- Cosmetic particle record, as in the source Particle interface. -/
structure Particle where
  x : ℚ
  y : ℚ
  vx : ℚ
  vy : ℚ
  life : ℚ
  maxLife : ℚ
  color : String
  size : ℚ
deriving DecidableEq, Repr

/-- Ground asset record, as in the source Asset interface (the source field
named `type` is embedded as `atype` to leave `type` free for Drone). -/
structure Asset where
  x : ℚ
  y : ℚ
  size : ℚ
  atype : String
  label : String
  priority : ℚ
  health : ℚ
  maxHealth : ℚ
deriving DecidableEq, Repr

/-- The Drone class state.  `target` is the by-id form of the source's object
reference (ids are unique per allegiance), `jammingTargets` likewise. -/
structure Drone where
  id : String
  x : ℚ
  y : ℚ
  vx : ℚ
  vy : ℚ
  isFriendly : Bool
  type : DKind
  target : Option String
  health : ℚ
  isEngaging : Bool
  trail : List (ℚ × ℚ)
  lastFired : ℚ
  lostCoords : Option (ℚ × ℚ)
  isJammed : Bool
  jammingTargets : List String
deriving DecidableEq, Repr

/-- The Drone constructor. -/
def mkDrone (id : String) (x y : ℚ) (isFriendly : Bool) (type : DKind) : Drone :=
  { id := id, x := x, y := y, vx := 0, vy := 0, isFriendly := isFriendly, type := type,
    target := none, health := if type = DKind.bomber then 150 else 100,
    isEngaging := false, trail := [], lastFired := 0, lostCoords := none,
    isJammed := false, jammingTargets := [] }

/-- Squared Euclidean distance; the squared form of calculateDistance. -/
def dist2 (x1 y1 x2 y2 : ℚ) : ℚ := (x1 - x2) * (x1 - x2) + (y1 - y2) * (y1 - y2)

/-- Exact rational square root where one exists (numerator and denominator of
the reduced fraction both perfect squares); used only where the source
consumes the numeric value of Math.sqrt. -/
def ratSqrt (q : ℚ) : ℚ := (Nat.sqrt q.num.toNat : ℚ) / (Nat.sqrt q.den : ℚ)

/-- Drone.moveTo: unit direction times speed, applied to the position, with
the trail ring (capacity 10, newest first) updated unconditionally.  The
source guard `dist > 1` is embedded as the equivalent `d2 > 1`. -/
def Drone.moveTo (self : Drone) (tx ty speed : ℚ) : Drone :=
  let dx := tx - self.x
  let dy := ty - self.y
  let d2 := dx * dx + dy * dy
  let moved :=
    if 1 < d2 then
      let dist := ratSqrt d2
      { self with vx := dx / dist * speed, vy := dy / dist * speed,
                  x := self.x + dx / dist * speed, y := self.y + dy / dist * speed }
    else self
  let t := (moved.x, moved.y) :: moved.trail
  { moved with trail := if 10 < t.length then t.dropLast else t }

/-- Simulation state: the live collections, archives, cosmetic particles,
counters and the random-oracle consumption index. -/
structure SimState where
  friendlies : List Drone
  hostiles : List Drone
  assets : List Asset
  destroyedAssets : List Asset
  particles : List Particle
  friendlyLosses : ℕ
  eliminated : ℕ
  rngIdx : ℕ
deriving DecidableEq, Repr

/-- Oracle for the transcendental circle-formation geometry. -/
structure Trig where
  tcos : ℚ → ℚ
  tsin : ℚ → ℚ
  tatan2 : ℚ → ℚ → ℚ

/-- Per-tick environment: live configuration flags, the active formation,
wall-clock time (Date.now()), the randomness oracle and the trig oracle. -/
structure Env where
  hasCommunication : Bool
  jammingEnabled : Bool
  formation : FormationType
  now : ℚ
  rng : ℕ → ℚ
  trig : Trig

def setF (s : SimState) (k : ℕ) (d : Drone) : SimState :=
  { s with friendlies := s.friendlies.set k d }

def setH (s : SimState) (i : ℕ) (d : Drone) : SimState :=
  { s with hostiles := s.hostiles.set i d }

def setA (s : SimState) (i : ℕ) (a : Asset) : SimState :=
  { s with assets := s.assets.set i a }

/-- Draw one value from the randomness oracle. -/
def takeRand (env : Env) (s : SimState) : ℚ × SimState :=
  (env.rng s.rngIdx, { s with rngIdx := s.rngIdx + 1 })

/-- Reference to the entity a fireAt call damages. -/
inductive TargetRef where
  | friendly (i : ℕ)
  | hostile (i : ℕ)
  | asset (i : ℕ)
deriving DecidableEq, Repr

/-- Current position of a fire target (the refs produced below always index
into the corresponding live list). -/
def targetPos (s : SimState) : TargetRef → ℚ × ℚ
  | TargetRef.friendly i =>
    match s.friendlies.get? i with
    | some d => (d.x, d.y)
    | none => (0, 0)
  | TargetRef.hostile i =>
    match s.hostiles.get? i with
    | some d => (d.x, d.y)
    | none => (0, 0)
  | TargetRef.asset i =>
    match s.assets.get? i with
    | some a => (a.x, a.y)
    | none => (0, 0)

/-- Apply weapon damage to the referenced entity: target.health -= damage. -/
def damageTarget (s : SimState) (t : TargetRef) (dmg : ℚ) : SimState :=
  match t with
  | TargetRef.friendly i =>
    match s.friendlies.get? i with
    | some d => setF s i { d with health := d.health - dmg }
    | none => s
  | TargetRef.hostile i =>
    match s.hostiles.get? i with
    | some d => setH s i { d with health := d.health - dmg }
    | none => s
  | TargetRef.asset i =>
    match s.assets.get? i with
    | some a => setA s i { a with health := a.health - dmg }
    | none => s

/-- One cosmetic hit-effect particle emitted by fireAt. -/
def hitParticle (env : Env) (s : SimState) (tx ty : ℚ) (color : String) : SimState :=
  let (r1, s) := takeRand env s
  let (r2, s) := takeRand env s
  let (r3, s) := takeRand env s
  let (r4, s) := takeRand env s
  let (r5, s) := takeRand env s
  let (r6, s) := takeRand env s
  { s with particles := s.particles ++
      [{ x := tx + (r1 - 0.5) * 10, y := ty + (r2 - 0.5) * 10,
         vx := (r3 - 0.5) * 4, vy := (r4 - 0.5) * 4,
         life := 10 + r5 * 10, maxLife := 20, color := color, size := 1 + r6 * 2 }] }

/-- Drone.fireAt: a complete no-op while the 100ms wall-clock cooldown has
not elapsed; otherwise stamps lastFired, applies the damage and emits two
hit-effect particles. -/
def fireAt (env : Env) (s : SimState) (self : Drone) (tgt : TargetRef)
    (color : String) (damage : ℚ) : Drone × SimState :=
  if env.now - self.lastFired < 100 then (self, s)
  else
    let self := { self with lastFired := env.now }
    let tp := targetPos s tgt
    let s := damageTarget s tgt damage
    let s := hitParticle env s tp.1 tp.2 color
    let s := hitParticle env s tp.1 tp.2 color
    (self, s)

/-- Fold computing the squared distance to the nearest asset together with the
priority of that asset (5 when a priority is falsy, as `priority || 5`);
`none` plays the role of the initial Infinity. -/
def nearestAssetPrio (hx hy : ℚ) (assets : List Asset) : Option ℚ × ℚ :=
  assets.foldl (fun (acc : Option ℚ × ℚ) (a : Asset) =>
    let d2 := dist2 hx hy a.x a.y
    match acc.1 with
    | none => (some d2, if a.priority = 0 then (5 : ℚ) else a.priority)
    | some m => if d2 < m then (some d2, if a.priority = 0 then (5 : ℚ) else a.priority) else acc)
    ((none : Option ℚ), (5 : ℚ))

/-- Squared distance to the nearest asset (the fold of isCriticalThreat). -/
def minAssetD2 (hx hy : ℚ) (assets : List Asset) : Option ℚ :=
  assets.foldl (fun acc a =>
    let d2 := dist2 hx hy a.x a.y
    match acc with
    | none => some d2
    | some m => if d2 < m then some d2 else acc) none

/-- Whether any live friendly bomber exists. -/
def friendlyBombersExist (friendlies : List Drone) : Bool :=
  friendlies.any (fun d => d.type == DKind.bomber && decide ((0 : ℚ) < d.health))

/-- Number of other friendlies (index different from selfIdx) whose target
reference is the given hostile. -/
def engagementCount (selfIdx : ℕ) (hostileId : String) (friendlies : List Drone) : ℕ :=
  (friendlies.enum.filter (fun p => p.1 != selfIdx && p.2.target == some hostileId)).length

/-- Drone.calculateThreatScore. -/
def calculateThreatScore (self : Drone) (selfIdx : ℕ) (hostile : Drone)
    (assets : List Asset) (friendlies : List Drone) (hasCommunication : Bool) : ℚ :=
  let np := nearestAssetPrio hostile.x hostile.y assets
  let critTerm : ℚ :=
    match np.1 with
    | some m => if m ≤ THREATENING_RANGE * THREATENING_RANGE then 1000 + np.2 * 10 else 0
    | none => 0
  let typeTerm : ℚ :=
    if self.type = DKind.drone ∧ friendlyBombersExist friendlies then
      (if hostile.type = DKind.drone then 2000 else -500)
    else
      (if hostile.type = DKind.bomber then 500 else 0)
  let distToSelf := ratSqrt (dist2 self.x self.y hostile.x hostile.y)
  let commTerm : ℚ :=
    if hasCommunication then (engagementCount selfIdx hostile.id friendlies : ℚ) * 30 else 0
  critTerm + typeTerm + 100 + 50 / (distToSelf + 1) - commTerm

/-- Drone.isCriticalThreat: nearest-asset distance within the threatening
range (false when no assets exist, matching the Infinity comparison). -/
def isCriticalThreat (hostile : Drone) (assets : List Asset) : Bool :=
  match minAssetD2 hostile.x hostile.y assets with
  | some m => decide (m ≤ THREATENING_RANGE * THREATENING_RANGE)
  | none => false

/-- Drone.shouldEngage: close-range override or engagement ratio below 30%. -/
def shouldEngage (self : Drone) (selfIdx : ℕ) (target : Drone)
    (friendlies : List Drone) : Bool :=
  let myD2 := dist2 self.x self.y target.x target.y
  let currentEngagers := engagementCount selfIdx target.id friendlies
  let engagementRatio : ℚ := (currentEngagers : ℚ) / (friendlies.length : ℚ)
  decide (myD2 < 200 * 200) || decide (engagementRatio < 0.3)

/-- Centroid of the ground assets. -/
def assetsCentroid (assets : List Asset) : ℚ × ℚ :=
  ((assets.map (fun a => a.x)).sum / (assets.length : ℚ),
   (assets.map (fun a => a.y)).sum / (assets.length : ℚ))

/-- Drone.maintainDefensivePosition. -/
def maintainDefensivePosition (self : Drone) (assets : List Asset) : Drone :=
  if assets.length = 0 then self
  else
    let c := assetsCentroid assets
    if 100 * 100 < dist2 self.x self.y c.1 c.2 then
      self.moveTo c.1 c.2 (DRONE_SPEED * 0.5)
    else self

/-- The spearhead while-loop: subtract r+1 from remaining while possible.
The fuel argument (index + 1) strictly dominates the number of iterations. -/
def spearDecomp : ℕ → ℕ → ℕ → ℕ × ℕ
  | 0, remaining, r => (remaining, r)
  | fuel + 1, remaining, r =>
    if r + 1 ≤ remaining then spearDecomp fuel (remaining - (r + 1)) (r + 1)
    else (remaining, r)

/-- Formation slot offset relative to the asset centroid, for the non-circle
formations (the circle branch orbits and is handled in patrolPosition). -/
def patrolSlot (formation : FormationType) (index : ℕ) (rosterSize : ℕ) : ℚ × ℚ :=
  let spacing : ℚ := 50
  match formation with
  | FormationType.circle => (0, 0)
  | FormationType.arrowhead =>
    if index = 0 then (0, -spacing * 1.5)
    else
      let row : ℚ := (((index + 1) / 2 : ℕ) : ℚ)
      let side : ℚ := if index % 2 = 0 then 1 else -1
      (side * row * spacing, -spacing * 1.5 + row * spacing)
  | FormationType.spearhead =>
    let rr := spearDecomp (index + 1) index 0
    let rowWidth : ℚ := ((rr.2 : ℚ) + 1) * spacing
    let startX := -rowWidth / 2 + spacing / 2
    (startX + (rr.1 : ℚ) * spacing, ((rr.2 : ℚ) - 1.5) * spacing)
  | FormationType.doubleFile =>
    let dfRow : ℚ := ((index / 2 : ℕ) : ℚ)
    let dfCol : ℚ := if index % 2 = 0 then -1 else 1
    (dfCol * spacing * 0.8, (dfRow - (rosterSize : ℚ) / 4) * spacing)
  | FormationType.extendedLine =>
    (((index : ℚ) - (rosterSize : ℚ) / 2) * spacing, 0)

/-- One term of the separation fold: a repulsive contribution from another
live drone within the separation radius. -/
def sepStep (self : Drone) (selfIdx : ℕ) (separationDist : ℚ)
    (acc : ℚ × ℚ × ℕ) (p : ℕ × Drone) : ℚ × ℚ × ℕ :=
  if p.1 ≠ selfIdx ∧ 0 < p.2.health then
    let d2 := dist2 self.x self.y p.2.x p.2.y
    if d2 < separationDist * separationDist ∧ 0 < d2 then
      let d := ratSqrt d2
      let force := (separationDist - d) / separationDist
      (acc.1 + (self.x - p.2.x) / d * force, acc.2.1 + (self.y - p.2.y) / d * force,
       acc.2.2 + 1)
    else acc
  else acc

/-- Drone.applySeparation: repulsive correction from every other live drone
within the separation radius, applied directly to the position. -/
def applySeparation (self : Drone) (selfIdx : ℕ) (drones : List Drone)
    (separationDist : ℚ) : Drone :=
  let acc := drones.enum.foldl (sepStep self selfIdx separationDist) (0, 0, 0)
  if 0 < acc.2.2 then { self with x := self.x + acc.1 * 1.5, y := self.y + acc.2.1 * 1.5 }
  else self

/-- Drone.patrolPosition: formation slot seeking (with the 5-unit snap
tolerance) followed by the separation pass.  The roster index is the drone's
position in the friendly array, as computed by indexOf in the source. -/
def patrolPosition (env : Env) (self : Drone) (selfIdx : ℕ) (assets : List Asset)
    (friendlies : List Drone) : Drone :=
  if assets.length = 0 then self
  else
    let c := assetsCentroid assets
    let self :=
      if env.formation = FormationType.circle then
        let angle := env.trig.tatan2 (self.y - c.2) (self.x - c.1)
        let orbitRadius : ℚ := 120
        self.moveTo (c.1 + env.trig.tcos (angle + 0.02) * orbitRadius)
                    (c.2 + env.trig.tsin (angle + 0.02) * orbitRadius) (DRONE_SPEED * 0.3)
      else
        let o := patrolSlot env.formation selfIdx friendlies.length
        let tx := c.1 + o.1
        let ty := c.2 + o.2
        if 25 < dist2 self.x self.y tx ty then self.moveTo tx ty (DRONE_SPEED * 0.5)
        else self
    applySeparation self selfIdx friendlies 40

/-- Position of the nearest asset (JS reduce seeded with the first element;
strict comparison keeps the earlier element on ties). -/
def nearestAssetPos (self : Drone) (assets : List Asset) : Option (ℚ × ℚ) :=
  match assets with
  | [] => none
  | a :: rest =>
    some (rest.foldl (fun best a2 =>
      if dist2 self.x self.y a2.x a2.y < dist2 self.x self.y best.1 best.2 then (a2.x, a2.y)
      else best) (a.x, a.y))

/-- Position of the nearest drone in a list (same reduce shape). -/
def nearestDronePos (self : Drone) (drones : List Drone) : Option (ℚ × ℚ) :=
  match drones with
  | [] => none
  | d :: rest =>
    some (rest.foldl (fun best d2 =>
      if dist2 self.x self.y d2.x d2.y < dist2 self.x self.y best.1 best.2 then (d2.x, d2.y)
      else best) (d.x, d.y))

/-- Autonomous mode of a friendly drone (communication lost): seek the
nearest asset with probability 0.7, else the nearest hostile, else jitter. -/
def autonomousUpdate (env : Env) (s : SimState) (k : ℕ) (self : Drone) : SimState :=
  let (r, s) := takeRand env s
  let groundThreat := decide (r < 0.7)
  if groundThreat ∧ s.assets.length ≠ 0 then
    match nearestAssetPos self s.assets with
    | some p => setF s k (self.moveTo p.1 p.2 DRONE_SPEED)
    | none => s
  else if s.hostiles.length ≠ 0 then
    match nearestDronePos self s.hostiles with
    | some p => setF s k (self.moveTo p.1 p.2 DRONE_SPEED)
    | none => s
  else
    let (r1, s) := takeRand env s
    let (r2, s) := takeRand env s
    setF s k { self with x := self.x + (r1 - 0.5), y := self.y + (r2 - 0.5) }

/-- Accumulator of the lost-neighbor scan. -/
structure RescueAcc where
  s : SimState
  self : Drone
  performingRescue : Bool

/-- One step of the lost-neighbor scan: clear a reconnected neighbor's mark,
or (at most once) move toward the first lost neighbor's recorded position. -/
def rescueStep (k : ℕ) (acc : RescueAcc) (p : ℕ × Drone) : RescueAcc :=
  if p.1 ≠ k then
    match p.2.lostCoords with
    | some lc =>
      if dist2 acc.self.x acc.self.y p.2.x p.2.y < 100 * 100 then
        { acc with s := setF acc.s p.1 { p.2 with lostCoords := none } }
      else if ¬acc.performingRescue then
        let self := acc.self.moveTo lc.1 lc.2 (DRONE_SPEED * 0.8)
        { s := setF acc.s k self, self := self, performingRescue := true }
      else acc
    | none => acc
  else acc

/-- One cosmetic jamming spark. -/
def jamParticle (env : Env) (s : SimState) (h : Drone) : SimState :=
  let (r1, s) := takeRand env s
  let (r2, s) := takeRand env s
  let (r3, s) := takeRand env s
  let (r4, s) := takeRand env s
  { s with particles := s.particles ++
      [{ x := h.x + (r1 - 0.5) * 10, y := h.y + (r2 - 0.5) * 10,
         vx := (r3 - 0.5) * 2, vy := (r4 - 0.5) * 2,
         life := 10, maxLife := 10, color := "#a855f7", size := 1.5 }] }

/-- One step of the friendly jamming sweep over hostile index i: mark a live
hostile within jamming range, record it, apply the 0.1 damage-over-time tick
and possibly emit a spark. -/
def jamStep (env : Env) (k : ℕ) (acc : SimState × Drone) (i : ℕ) : SimState × Drone :=
  match acc.1.hostiles.get? i with
  | none => acc
  | some h =>
    if 0 < h.health ∧ dist2 acc.2.x acc.2.y h.x h.y ≤ JAMMING_RANGE * JAMMING_RANGE then
      let s := setH acc.1 i { h with isJammed := true, health := h.health - 0.1 }
      let self := { acc.2 with jammingTargets := acc.2.jammingTargets ++ [h.id] }
      let s := setF s k self
      let (r, s) := takeRand env s
      let s := if r < 0.1 then jamParticle env s h else s
      (s, self)
    else acc

/-- One term of the target-selection fold: keep the first maximal score. -/
def scoreStep (env : Env) (self : Drone) (selfIdx : ℕ) (s : SimState)
    (best : Option (ℕ × ℚ)) (p : ℕ × Drone) : Option (ℕ × ℚ) :=
  let score := calculateThreatScore self selfIdx p.2 s.assets s.friendlies
    env.hasCommunication
  match best with
  | none => some (p.1, score)
  | some b => if b.2 < score then some (p.1, score) else best

/-- Target-selection fold: index of the hostile with the maximal threat score
(first maximum kept; the initial none plays the role of -Infinity). -/
def selectTarget (env : Env) (self : Drone) (selfIdx : ℕ) (s : SimState) : Option ℕ :=
  (s.hostiles.enum.foldl (scoreStep env self selfIdx s) none).map (fun b => b.1)

/-- The lost-neighbor scan of Drone.update (clear reconnected marks, at most
one rescue move). -/
def rescueScan (k : ℕ) (s : SimState) (self : Drone) : RescueAcc :=
  s.friendlies.enum.foldl (rescueStep k) ⟨s, self, false⟩

/-- Mark self as lost when its distance to the swarm centroid exceeds 300
while it carries no mark (only with a roster of more than one). -/
def markLostIfFar (s : SimState) (k : ℕ) (self : Drone) : SimState × Drone :=
  let fl := s.friendlies
  if 1 < fl.length then
    let avgX := (fl.map (fun f => f.x)).sum / (fl.length : ℚ)
    let avgY := (fl.map (fun f => f.y)).sum / (fl.length : ℚ)
    if 300 * 300 < dist2 self.x self.y avgX avgY ∧ self.lostCoords = none then
      let self := { self with lostCoords := some (self.x, self.y) }
      (setF s k self, self)
    else (s, self)
  else (s, self)

/-- The jamming sweep of Drone.update: every hostile in range of this
friendly is marked, recorded and damaged. -/
def jamSweep (env : Env) (k : ℕ) (s : SimState) (self : Drone) : SimState × Drone :=
  if env.jammingEnabled then
    (List.range s.hostiles.length).foldl (jamStep env k) (s, self)
  else (s, self)

/-- The decision tail of the friendly Drone.update: select the maximal-score
hostile, engage (fire or pursue) when critical or permitted by shouldEngage,
hold the defensive position otherwise, patrol when no hostile exists. -/
def friendlyDecide (env : Env) (s : SimState) (k : ℕ) (self : Drone) : SimState :=
  match selectTarget env self k s with
  | some hIdx =>
    match s.hostiles.get? hIdx with
    | none => s
    | some h =>
      let self := { self with target := some h.id, isEngaging := true }
      let s := setF s k self
      let isCritical := isCriticalThreat h s.assets
      if isCritical || shouldEngage self k h s.friendlies then
        if dist2 self.x self.y h.x h.y ≤ FIRING_RANGE * FIRING_RANGE then
          let damage : ℚ := if self.type = DKind.bomber then 20 else 2
          let fr := fireAt env s self (TargetRef.hostile hIdx) "#fbbf24" damage
          setF fr.2 k fr.1
        else
          setF s k (self.moveTo h.x h.y DRONE_SPEED)
      else
        setF s k (maintainDefensivePosition self s.assets)
  | none =>
    let self := { self with target := none, isEngaging := false }
    let s := setF s k self
    setF s k (patrolPosition env self k s.assets s.friendlies)

/-- Per-tick update of the friendly drone at index k (Drone.update, friendly
branch), threading the sequentially mutated state. -/
def friendlyUpdateAt (env : Env) (s : SimState) (k : ℕ) : SimState :=
  match s.friendlies.get? k with
  | none => s
  | some self0 =>
    let self := { self0 with jammingTargets := [] }
    let s := setF s k self
    if ¬env.hasCommunication then autonomousUpdate env s k self
    else
      let acc := rescueScan k s self
      let marked := markLostIfFar acc.s k acc.self
      let s := marked.1
      let self := marked.2
      if acc.performingRescue then s
      else
        let jammed := jamSweep env k s self
        friendlyDecide env jammed.1 k jammed.2

/-- Nearest-entry fold over an indexed list, returning index and squared
distance of the closest element (strict comparison keeps the first). -/
def nearestIdx (sx sy : ℚ) (xs : List (ℚ × ℚ)) : Option (ℕ × ℚ) :=
  xs.enum.foldl (fun best p =>
    let d2 := dist2 sx sy p.2.1 p.2.2
    match best with
    | none => some (p.1, d2)
    | some b => if d2 < b.2 then some (p.1, d2) else best) none

/-- The exclusive combat priority chain of the hostile Drone.update: fire on
a friendly within firing range, else fire on an asset within firing range,
else approach a moderately close friendly. -/
def hostileCombat (env : Env) (s : SimState) (k : ℕ) (self : Drone)
    (currentSpeed : ℚ) (na nf : Option (ℕ × ℚ)) : SimState × Drone :=
  match nf with
  | some fb =>
    if fb.2 ≤ FIRING_RANGE * FIRING_RANGE then
      let dmg : ℚ := if self.type = DKind.bomber then 15 else 1.5
      let fr := fireAt env s self (TargetRef.friendly fb.1) "#ef4444" dmg
      (setH fr.2 k fr.1, fr.1)
    else
      match na with
      | some ab =>
        if ab.2 ≤ FIRING_RANGE * FIRING_RANGE then
          let dmg : ℚ := if self.type = DKind.bomber then 50 else 5
          let fr := fireAt env s self (TargetRef.asset ab.1) "#f97316" dmg
          (setH fr.2 k fr.1, fr.1)
        else if fb.2 ≤ (FIRING_RANGE * 1.5) * (FIRING_RANGE * 1.5) then
          match s.friendlies.get? fb.1 with
          | some f =>
            let self := self.moveTo f.x f.y currentSpeed
            (setH s k self, self)
          | none => (s, self)
        else (s, self)
      | none =>
        if fb.2 ≤ (FIRING_RANGE * 1.5) * (FIRING_RANGE * 1.5) then
          match s.friendlies.get? fb.1 with
          | some f =>
            let self := self.moveTo f.x f.y currentSpeed
            (setH s k self, self)
          | none => (s, self)
        else (s, self)
  | none =>
    match na with
    | some ab =>
      if ab.2 ≤ FIRING_RANGE * FIRING_RANGE then
        let dmg : ℚ := if self.type = DKind.bomber then 50 else 5
        let fr := fireAt env s self (TargetRef.asset ab.1) "#f97316" dmg
        (setH fr.2 k fr.1, fr.1)
      else (s, self)
    | none => (s, self)

/-- The movement logic of the hostile Drone.update: close on the nearest
asset while outside near-firing distance, else close on the nearest friendly.
The distances na and nf were computed before combat, as in the source. -/
def hostileMovement (s : SimState) (k : ℕ) (self : Drone) (currentSpeed : ℚ)
    (na nf : Option (ℕ × ℚ)) : SimState :=
  match na with
  | some ab =>
    if (FIRING_RANGE * 0.8) * (FIRING_RANGE * 0.8) < ab.2 then
      match s.assets.get? ab.1 with
      | some a =>
        let self := self.moveTo a.x a.y currentSpeed
        setH s k self
      | none => s
    else s
  | none =>
    match nf with
    | some fb =>
      match s.friendlies.get? fb.1 with
      | some f =>
        let self := self.moveTo f.x f.y currentSpeed
        setH s k self
      | none => s
    | none => s

/-- Per-tick update of the hostile drone at index k (Drone.update, hostile
branch): speed selection with the 20% jam cap, the exclusive combat priority
chain when not jammed, then the movement logic. -/
def hostileUpdateAt (env : Env) (s : SimState) (k : ℕ) : SimState :=
  match s.hostiles.get? k with
  | none => s
  | some self0 =>
    let self := { self0 with jammingTargets := [] }
    let s := setH s k self
    let baseSpeed := if self.type = DKind.bomber then BOMBER_SPEED else HOSTILE_SPEED
    let currentSpeed := if self.isJammed then baseSpeed * 0.2 else baseSpeed
    let na := nearestIdx self.x self.y (s.assets.map (fun a => (a.x, a.y)))
    let nf := nearestIdx self.x self.y (s.friendlies.map (fun f => (f.x, f.y)))
    let combat :=
      if ¬self.isJammed then hostileCombat env s k self currentSpeed na nf
      else (s, self)
    hostileMovement combat.1 k combat.2 currentSpeed na nf

/-- Particle aging and culling at the start of a tick. -/
def ageParticles (s : SimState) : SimState :=
  { s with particles := (s.particles.map (fun p =>
      { p with x := p.x + p.vx, y := p.y + p.vy, life := p.life - 1,
               size := p.size * 0.95 })).filter (fun p => decide ((0 : ℚ) < p.life)) }

/-- Cosmetic explosion: count particles centred at (x, y). -/
def createExplosion (env : Env) (s : SimState) (x y : ℚ) (color : String)
    (scale : ℚ) (count : ℕ) : SimState :=
  (List.range count).foldl (fun s _ =>
    let (r1, s) := takeRand env s
    let (r2, s) := takeRand env s
    let (r3, s) := takeRand env s
    let (r4, s) := takeRand env s
    { s with particles := s.particles ++
        [{ x := x, y := y, vx := (r1 - 0.5) * 8 * scale, vy := (r2 - 0.5) * 8 * scale,
           life := 20 + r3 * 20, maxLife := 40, color := color,
           size := (2 + r4 * 4) * scale }] }) s

/-- The friendly pass: update every friendly, in order, against the current
sequentially mutated collections. -/
def runFriendlyPass (env : Env) (s : SimState) : SimState :=
  (List.range s.friendlies.length).foldl (friendlyUpdateAt env) s

/-- One guarded step of the hostile pass: the update runs only when the
hostile's current health is positive. -/
def hostileGuardedStep (env : Env) (s : SimState) (k : ℕ) : SimState :=
  match s.hostiles.get? k with
  | some h => if 0 < h.health then hostileUpdateAt env s k else s
  | none => s

/-- The hostile pass: update every hostile whose current health is positive. -/
def runHostilePass (env : Env) (s : SimState) : SimState :=
  (List.range s.hostiles.length).foldl (hostileGuardedStep env) s

/-- Casualty partition of the friendlies: survivors keep their order; each
casualty triggers an explosion and increments the loss counter. -/
def partitionFriendlies (env : Env) (s : SimState) : SimState :=
  s.friendlies.foldl (fun acc d =>
    if 0 < d.health then { acc with friendlies := acc.friendlies ++ [d] }
    else
      let acc := createExplosion env acc d.x d.y "#3b82f6" 1 20
      { acc with friendlyLosses := acc.friendlyLosses + 1 })
    { s with friendlies := [] }

/-- Casualty partition of the assets: destroyed assets move to the archive. -/
def partitionAssets (env : Env) (s : SimState) : SimState :=
  s.assets.foldl (fun acc a =>
    if 0 < a.health then { acc with assets := acc.assets ++ [a] }
    else
      let acc := createExplosion env acc a.x a.y "#f59e0b" 2.5 50
      { acc with destroyedAssets := acc.destroyedAssets ++ [a] })
    { s with assets := [] }

/-- Casualty partition of the hostiles: eliminations are counted. -/
def partitionHostiles (env : Env) (s : SimState) : SimState :=
  s.hostiles.foldl (fun acc d =>
    if 0 < d.health then { acc with hostiles := acc.hostiles ++ [d] }
    else
      let acc := createExplosion env acc d.x d.y "#f97316" 1 20
      { acc with eliminated := acc.eliminated + 1 })
    { s with hostiles := [] }

/-- Clearing of all hostile jam flags at the start of a tick. -/
def clearJamFlags (s : SimState) : SimState :=
  { s with hostiles := s.hostiles.map (fun h => { h with isJammed := false }) }

/-- The pre-partition phases of a tick: particle aging, jam-flag clearing,
the friendly pass and the guarded hostile pass. -/
def tickCore (env : Env) (s : SimState) : SimState :=
  runHostilePass env (runFriendlyPass env (clearJamFlags (ageParticles s)))

/-- One full simulation tick (updateSimulation): the pre-partition phases
followed by the three casualty partitions.  The rate-limited UI statistics
publication is a display-only consumer and is not part of the engine state. -/
def updateSimulation (env : Env) (s : SimState) : SimState :=
  partitionHostiles env (partitionAssets env (partitionFriendlies env (tickCore env s)))

/-- Friendly health column of a state. -/
def healthsF (s : SimState) : List ℚ := s.friendlies.map (fun d => d.health)

/-- Hostile health column of a state. -/
def healthsH (s : SimState) : List ℚ := s.hostiles.map (fun d => d.health)

/-- Asset health column of a state. -/
def healthsA (s : SimState) : List ℚ := s.assets.map (fun a => a.health)

/-- Hostile id column of a state. -/
def idsH (s : SimState) : List String := s.hostiles.map (fun d => d.id)

/-- Pointwise non-increase of all three health columns. -/
def healthsLe (s t : SimState) : Prop :=
  List.Forall₂ (· ≤ ·) (healthsF s) (healthsF t) ∧
  List.Forall₂ (· ≤ ·) (healthsH s) (healthsH t) ∧
  List.Forall₂ (· ≤ ·) (healthsA s) (healthsA t)

/- Concrete scenario data used by the closed counterexamples and witnesses. -/

/-- Trivial trig oracle (the circle-formation branch is unused in every
concrete scenario below). -/
def zTrig : Trig := ⟨fun _ => 0, fun _ => 0, fun _ _ => 0⟩

/-- Environment with communication disabled. -/
def envOff : Env := ⟨false, false, FormationType.circle, 100000, fun _ => 9/10, zTrig⟩

/-- Environment with communication enabled and jamming disabled. -/
def envOn : Env := ⟨true, false, FormationType.circle, 100000, fun _ => 9/10, zTrig⟩

/-- Environment with communication and jamming enabled. -/
def envJam : Env := ⟨true, true, FormationType.circle, 100000, fun _ => 1/2, zTrig⟩

/-- A friendly drone holding a stale target reference. -/
def f1 : Drone :=
  { mkDrone "F-1" 0 0 true DKind.drone with target := some "H-9", isEngaging := true }

/-- A live hostile 100 units to the right of f1. -/
def h1 : Drone := mkDrone "H-1" 100 0 false DKind.drone

/-- State for the dangling-target scenario: one friendly whose target id
references a hostile that is no longer in the live set. -/
def s1 : SimState := ⟨[f1], [h1], [], [], [], 0, 0, 0⟩

/-- Ten friendly interceptors in a vertical line at x = 0. -/
def friends10 : List Drone :=
  (List.range 10).map (fun i => mkDrone ("F-" ++ toString i) 0 (10 * i) true DKind.drone)

/-- One hostile far above the friendly line (not critical: no assets). -/
def hFar : Drone := mkDrone "H-1" 0 1000 false DKind.drone

/-- Engagement-saturation scenario: 10 friendlies, 1 non-critical hostile. -/
def s2 : SimState := ⟨friends10, [hFar], [], [], [], 0, 0, 0⟩

/-- A jammed hostile interceptor at the origin. -/
def hJ : Drone := { mkDrone "H-1" 0 0 false DKind.drone with isJammed := true }

/-- The same hostile, not jammed. -/
def hU : Drone := mkDrone "H-1" 0 0 false DKind.drone

/-- A friendly 60 units from the hostile (inside the 75-unit approach band,
outside the 50-unit firing range). -/
def fTgt : Drone := mkDrone "F-1" 60 0 true DKind.drone

/-- Jammed-displacement scenario. -/
def s4J : SimState := ⟨[fTgt], [hJ], [], [], [], 0, 0, 0⟩

/-- Unjammed twin of s4J. -/
def s4U : SimState := ⟨[fTgt], [hU], [], [], [], 0, 0, 0⟩

/-- A friendly within both jamming and firing range of hC. -/
def fA : Drone := mkDrone "F-1" 0 0 true DKind.drone

/-- A friendly within jamming range but outside firing range of hC. -/
def fB : Drone := mkDrone "F-2" 48 90 true DKind.drone

/-- A low-health hostile: 2.05 exceeds 0.1 times the two jammers. -/
def hC : Drone := { mkDrone "H-1" 48 0 false DKind.drone with health := 2.05 }

/-- Jamming-stack scenario: two jammers, one of which also fires. -/
def s10 : SimState := ⟨[fA, fB], [hC], [], [], [], 0, 0, 0⟩

/-- A friendly bomber used as a threat-scoring drone. -/
def selfB : Drone := mkDrone "B-1" 0 0 true DKind.bomber

/-- A hostile bomber 50 units from selfB. -/
def hostB : Drone := mkDrone "HB-1" 30 40 false DKind.bomber

/-- A hostile interceptor at the same position as hostB. -/
def hostI : Drone := mkDrone "H-1" 30 40 false DKind.drone

/-- A hostile at the origin with a friendly in firing range and an asset in
firing range (self-defense scenario). -/
def hN : Drone := mkDrone "H-1" 0 0 false DKind.drone

/-- The friendly within firing range of hN. -/
def fN : Drone := mkDrone "F-1" 30 0 true DKind.drone

/-- An asset within firing range of hN. -/
def aN : Asset := ⟨10, 0, 20, "aa", "AA Gun", 7, 1000, 1000⟩

/-- Self-defense-priority scenario state. -/
def s6 : SimState := ⟨[fN], [hN], [aN], [], [], 0, 0, 0⟩

/-- A friendly beyond the 75-unit approach band of the hostile at the
origin. -/
def fFar : Drone := mkDrone "F-1" 100 0 true DKind.drone

/-- Jammed hostile with only a far friendly: the approach move is not taken. -/
def s4b : SimState := ⟨[fFar], [hJ], [], [], [], 0, 0, 0⟩

/-- An asset whose centroid is itself, for the formation-slot witness. -/
def aC : Asset := ⟨400, 300, 30, "command", "Command Center", 10, 3000, 3000⟩

/-- A friendly sitting exactly on its extended-line slot for roster size 1. -/
def fSlot : Drone := mkDrone "F-1" 375 300 true DKind.drone

/-- Environment with the extended-line formation active. -/
def envLine : Env := ⟨true, false, FormationType.extendedLine, 100000, fun _ => 0, zTrig⟩

/-- The ten friendlies of s2 with their targets locked on the hostile
(the steady state of the saturation scenario). -/
def friends10T : List Drone := friends10.map (fun d => { d with target := some "H-1" })

/-- A one-friendly one-hostile normal-mode state. -/
def sOne : SimState := ⟨[fA], [hC], [], [], [], 0, 0, 0⟩

/-- Environment 50ms of wall-clock time after envOn. -/
def envLate : Env := ⟨true, false, FormationType.circle, 100050, fun _ => 9/10, zTrig⟩

/-- The friendly of the dangling-target scenario after its autonomous move
toward the hostile (two units along the x axis, trail recording the new
position). -/
def f1m : Drone := { f1 with x := 2, vx := 2, trail := [(2, 0)] }

/-- The dangling-target state after the friendly pass. -/
def s1f : SimState := ⟨[f1m], [h1], [], [], [], 0, 0, 1⟩

/-- The hostile of the dangling-target scenario after its movement step
toward the friendly (1.5 units left). -/
def h1m : Drone := { h1 with x := 197/2, vx := -(3/2), trail := [(197/2, 0)] }

/-- The dangling-target state after the hostile pass. -/
def s1h : SimState := ⟨[f1m], [h1m], [], [], [], 0, 0, 1⟩

/-- Saturation steady state: ten friendlies already locked on the single
non-critical hostile. -/
def s2T : SimState := ⟨friends10T, [hFar], [], [], [], 0, 0, 0⟩

/-- Critical-override scenario: one friendly beyond firing range of a
hostile that threatens an asset. -/
def sC : SimState := ⟨[fFar], [hN], [aN], [], [], 0, 0, 0⟩

/-- The saturation roster after a tick: all ten report engagement. -/
def friends10E : List Drone :=
  friends10.map (fun d => { d with target := some "H-1", isEngaging := true })

/-- The saturation state after the friendly pass. -/
def s2TF : SimState := ⟨friends10E, [hFar], [], [], [], 0, 0, 0⟩

/-- The saturation hostile after its movement step (1.5 units down toward
the nearest friendly). -/
def hFarM : Drone := { hFar with y := 1997/2, vy := -(3/2), trail := [(0, 1997/2)] }

/-- The saturation state after the hostile pass. -/
def s2TH : SimState := ⟨friends10E, [hFarM], [], [], [], 0, 0, 0⟩

/-- Saturation roster mid-pass: the first i friendlies already updated. -/
def friends10M (i : ℕ) : List Drone := friends10E.take i ++ friends10T.drop i

/-- Saturation state mid-pass. -/
def s2Ts (i : ℕ) : SimState := ⟨friends10M i, [hFar], [], [], [], 0, 0, 0⟩

/-- A hostile whose health has already reached zero. -/
def hDead : Drone := { h1 with health := 0 }

/-- State holding only the dead hostile. -/
def sDead : SimState := ⟨[], [hDead], [], [], [], 0, 0, 0⟩

/- List toolkit used throughout the proofs. -/

theorem set_same {α : Type} : ∀ (l : List α) (i : ℕ) (x : α),
    l.get? i = some x → l.set i x = l
  | [], _, _, h => by simp [List.get?] at h
  | a :: t, 0, x, h => by
    simp only [List.get?_cons_zero, Option.some.injEq] at h
    simp [h]
  | a :: t, i + 1, x, h => by
    simp only [List.get?_cons_succ] at h
    simp [List.set, set_same t i x h]

theorem map_set_comm {α β : Type} (f : α → β) : ∀ (l : List α) (i : ℕ) (a : α),
    (l.set i a).map f = (l.map f).set i (f a)
  | [], _, _ => rfl
  | _ :: _, 0, _ => rfl
  | x :: t, i + 1, a => by simp [List.set, map_set_comm f t i a]

theorem forall2_le_refl (l : List ℚ) : List.Forall₂ (· ≤ ·) l l :=
  List.forall₂_same.mpr (fun x _ => le_refl x)

theorem forall2_le_trans {a b c : List ℚ} (h1 : List.Forall₂ (· ≤ ·) a b)
    (h2 : List.Forall₂ (· ≤ ·) b c) : List.Forall₂ (· ≤ ·) a c := by
  induction h1 generalizing c with
  | nil => cases h2; exact List.Forall₂.nil
  | cons hab _ ih =>
    cases h2 with
    | cons hbc h2t => exact List.Forall₂.cons (le_trans hab hbc) (ih h2t)

theorem forall2_le_set : ∀ (l : List ℚ) (i : ℕ) (x : ℚ),
    (∀ y, l.get? i = some y → x ≤ y) → List.Forall₂ (· ≤ ·) (l.set i x) l
  | [], _, _, _ => List.Forall₂.nil
  | a :: t, 0, x, h => List.Forall₂.cons (h a (by simp)) (forall2_le_refl t)
  | a :: t, i + 1, x, h => by
    refine List.Forall₂.cons (le_refl a) (forall2_le_set t i x (fun y hy => h y ?_))
    simpa using hy

theorem foldl_eq_preserve {α β γ : Type} (f : β → α → β) (g : β → γ)
    (h : ∀ s a, g (f s a) = g s) : ∀ (l : List α) (s : β), g (l.foldl f s) = g s
  | [], _ => rfl
  | a :: t, s => by rw [List.foldl_cons, foldl_eq_preserve f g h t (f s a), h]

theorem foldl_le_preserve {α β : Type} (f : β → α → β) (g : β → List ℚ)
    (h : ∀ s a, List.Forall₂ (· ≤ ·) (g (f s a)) (g s)) :
    ∀ (l : List α) (s : β), List.Forall₂ (· ≤ ·) (g (l.foldl f s)) (g s)
  | [], _ => forall2_le_refl _
  | a :: t, s => forall2_le_trans (foldl_le_preserve f g h t (f s a)) (h s a)

theorem foldl_id {α β : Type} (f : β → α → β) : ∀ (l : List α) (init : β),
    (∀ acc p, p ∈ l → f acc p = acc) → l.foldl f init = init
  | [], _, _ => rfl
  | a :: t, init, h => by
    rw [List.foldl_cons, h init a (by simp)]
    exact foldl_id f t init (fun acc p hp => h acc p (by simp [hp]))

theorem int_toNat_ofNat (n : ℕ) [n.AtLeastTwo] :
    (Int.toNat (no_index (OfNat.ofNat n))) = OfNat.ofNat n := by
  rw [← Nat.cast_ofNat, Int.toNat_natCast]

theorem foldl_inv {α β : Type} (f : β → α → β) (P : β → Prop) :
    ∀ (l : List α) (init : β), P init → (∀ acc p, p ∈ l → P acc → P (f acc p)) →
      P (l.foldl f init)
  | [], _, h, _ => h
  | a :: t, init, h, hstep => by
    rw [List.foldl_cons]
    exact foldl_inv f P t (f init a) (hstep init a (by simp) h)
      (fun acc p hp => hstep acc p (by simp [hp]))

/- Field-preservation facts about the drone mutators. -/

@[simp] theorem moveTo_id (self : Drone) (tx ty v : ℚ) :
    (self.moveTo tx ty v).id = self.id := by
  unfold Drone.moveTo; dsimp only; split <;> rfl

@[simp] theorem moveTo_target (self : Drone) (tx ty v : ℚ) :
    (self.moveTo tx ty v).target = self.target := by
  unfold Drone.moveTo; dsimp only; split <;> rfl

@[simp] theorem moveTo_health (self : Drone) (tx ty v : ℚ) :
    (self.moveTo tx ty v).health = self.health := by
  unfold Drone.moveTo; dsimp only; split <;> rfl

@[simp] theorem moveTo_isEngaging (self : Drone) (tx ty v : ℚ) :
    (self.moveTo tx ty v).isEngaging = self.isEngaging := by
  unfold Drone.moveTo; dsimp only; split <;> rfl

@[simp] theorem moveTo_lostCoords (self : Drone) (tx ty v : ℚ) :
    (self.moveTo tx ty v).lostCoords = self.lostCoords := by
  unfold Drone.moveTo; dsimp only; split <;> rfl

@[simp] theorem moveTo_lastFired (self : Drone) (tx ty v : ℚ) :
    (self.moveTo tx ty v).lastFired = self.lastFired := by
  unfold Drone.moveTo; dsimp only; split <;> rfl

@[simp] theorem moveTo_type (self : Drone) (tx ty v : ℚ) :
    (self.moveTo tx ty v).type = self.type := by
  unfold Drone.moveTo; dsimp only; split <;> rfl

@[simp] theorem moveTo_isFriendly (self : Drone) (tx ty v : ℚ) :
    (self.moveTo tx ty v).isFriendly = self.isFriendly := by
  unfold Drone.moveTo; dsimp only; split <;> rfl

@[simp] theorem moveTo_isJammed (self : Drone) (tx ty v : ℚ) :
    (self.moveTo tx ty v).isJammed = self.isJammed := by
  unfold Drone.moveTo; dsimp only; split <;> rfl

@[simp] theorem moveTo_jammingTargets (self : Drone) (tx ty v : ℚ) :
    (self.moveTo tx ty v).jammingTargets = self.jammingTargets := by
  unfold Drone.moveTo; dsimp only; split <;> rfl

@[simp] theorem applySeparation_id (self : Drone) (k : ℕ) (l : List Drone) (r : ℚ) :
    (applySeparation self k l r).id = self.id := by
  unfold applySeparation; dsimp only; split <;> rfl

@[simp] theorem applySeparation_target (self : Drone) (k : ℕ) (l : List Drone) (r : ℚ) :
    (applySeparation self k l r).target = self.target := by
  unfold applySeparation; dsimp only; split <;> rfl

@[simp] theorem applySeparation_health (self : Drone) (k : ℕ) (l : List Drone) (r : ℚ) :
    (applySeparation self k l r).health = self.health := by
  unfold applySeparation; dsimp only; split <;> rfl

@[simp] theorem applySeparation_isEngaging (self : Drone) (k : ℕ) (l : List Drone) (r : ℚ) :
    (applySeparation self k l r).isEngaging = self.isEngaging := by
  unfold applySeparation; dsimp only; split <;> rfl

@[simp] theorem applySeparation_lostCoords (self : Drone) (k : ℕ) (l : List Drone) (r : ℚ) :
    (applySeparation self k l r).lostCoords = self.lostCoords := by
  unfold applySeparation; dsimp only; split <;> rfl

@[simp] theorem applySeparation_lastFired (self : Drone) (k : ℕ) (l : List Drone) (r : ℚ) :
    (applySeparation self k l r).lastFired = self.lastFired := by
  unfold applySeparation; dsimp only; split <;> rfl

@[simp] theorem applySeparation_type (self : Drone) (k : ℕ) (l : List Drone) (r : ℚ) :
    (applySeparation self k l r).type = self.type := by
  unfold applySeparation; dsimp only; split <;> rfl

@[simp] theorem maintainDefensivePosition_id (self : Drone) (assets : List Asset) :
    (maintainDefensivePosition self assets).id = self.id := by
  unfold maintainDefensivePosition; dsimp only; split
  · rfl
  · split <;> simp

@[simp] theorem maintainDefensivePosition_target (self : Drone) (assets : List Asset) :
    (maintainDefensivePosition self assets).target = self.target := by
  unfold maintainDefensivePosition; dsimp only; split
  · rfl
  · split <;> simp

@[simp] theorem maintainDefensivePosition_health (self : Drone) (assets : List Asset) :
    (maintainDefensivePosition self assets).health = self.health := by
  unfold maintainDefensivePosition; dsimp only; split
  · rfl
  · split <;> simp

@[simp] theorem maintainDefensivePosition_isEngaging (self : Drone) (assets : List Asset) :
    (maintainDefensivePosition self assets).isEngaging = self.isEngaging := by
  unfold maintainDefensivePosition; dsimp only; split
  · rfl
  · split <;> simp

@[simp] theorem maintainDefensivePosition_lastFired (self : Drone) (assets : List Asset) :
    (maintainDefensivePosition self assets).lastFired = self.lastFired := by
  unfold maintainDefensivePosition; dsimp only; split
  · rfl
  · split <;> simp

@[simp] theorem patrolPosition_id (env : Env) (self : Drone) (k : ℕ)
    (assets : List Asset) (fl : List Drone) :
    (patrolPosition env self k assets fl).id = self.id := by
  unfold patrolPosition; dsimp only; split
  · rfl
  · split
    · simp
    · split <;> simp

@[simp] theorem patrolPosition_target (env : Env) (self : Drone) (k : ℕ)
    (assets : List Asset) (fl : List Drone) :
    (patrolPosition env self k assets fl).target = self.target := by
  unfold patrolPosition; dsimp only; split
  · rfl
  · split
    · simp
    · split <;> simp

@[simp] theorem patrolPosition_health (env : Env) (self : Drone) (k : ℕ)
    (assets : List Asset) (fl : List Drone) :
    (patrolPosition env self k assets fl).health = self.health := by
  unfold patrolPosition; dsimp only; split
  · rfl
  · split
    · simp
    · split <;> simp

@[simp] theorem patrolPosition_isEngaging (env : Env) (self : Drone) (k : ℕ)
    (assets : List Asset) (fl : List Drone) :
    (patrolPosition env self k assets fl).isEngaging = self.isEngaging := by
  unfold patrolPosition; dsimp only; split
  · rfl
  · split
    · simp
    · split <;> simp

@[simp] theorem patrolPosition_lastFired (env : Env) (self : Drone) (k : ℕ)
    (assets : List Asset) (fl : List Drone) :
    (patrolPosition env self k assets fl).lastFired = self.lastFired := by
  unfold patrolPosition; dsimp only; split
  · rfl
  · split
    · simp
    · split <;> simp

/- Component-preservation facts about the state operations. -/

@[simp] theorem setF_hostiles (s : SimState) (k : ℕ) (d : Drone) :
    (setF s k d).hostiles = s.hostiles := rfl

@[simp] theorem setF_assets (s : SimState) (k : ℕ) (d : Drone) :
    (setF s k d).assets = s.assets := rfl

@[simp] theorem setF_particles (s : SimState) (k : ℕ) (d : Drone) :
    (setF s k d).particles = s.particles := rfl

@[simp] theorem setF_friendlies (s : SimState) (k : ℕ) (d : Drone) :
    (setF s k d).friendlies = s.friendlies.set k d := rfl

@[simp] theorem setH_friendlies (s : SimState) (k : ℕ) (d : Drone) :
    (setH s k d).friendlies = s.friendlies := rfl

@[simp] theorem setH_assets (s : SimState) (k : ℕ) (d : Drone) :
    (setH s k d).assets = s.assets := rfl

@[simp] theorem setH_particles (s : SimState) (k : ℕ) (d : Drone) :
    (setH s k d).particles = s.particles := rfl

@[simp] theorem setH_hostiles (s : SimState) (k : ℕ) (d : Drone) :
    (setH s k d).hostiles = s.hostiles.set k d := rfl

@[simp] theorem setA_friendlies (s : SimState) (i : ℕ) (a : Asset) :
    (setA s i a).friendlies = s.friendlies := rfl

@[simp] theorem setA_hostiles (s : SimState) (i : ℕ) (a : Asset) :
    (setA s i a).hostiles = s.hostiles := rfl

@[simp] theorem setA_particles (s : SimState) (i : ℕ) (a : Asset) :
    (setA s i a).particles = s.particles := rfl

@[simp] theorem setA_assets (s : SimState) (i : ℕ) (a : Asset) :
    (setA s i a).assets = s.assets.set i a := rfl

@[simp] theorem hitParticle_friendlies (env : Env) (s : SimState) (tx ty : ℚ) (c : String) :
    (hitParticle env s tx ty c).friendlies = s.friendlies := rfl

@[simp] theorem hitParticle_hostiles (env : Env) (s : SimState) (tx ty : ℚ) (c : String) :
    (hitParticle env s tx ty c).hostiles = s.hostiles := rfl

@[simp] theorem hitParticle_assets (env : Env) (s : SimState) (tx ty : ℚ) (c : String) :
    (hitParticle env s tx ty c).assets = s.assets := rfl

@[simp] theorem jamParticle_friendlies (env : Env) (s : SimState) (h : Drone) :
    (jamParticle env s h).friendlies = s.friendlies := rfl

@[simp] theorem jamParticle_hostiles (env : Env) (s : SimState) (h : Drone) :
    (jamParticle env s h).hostiles = s.hostiles := rfl

@[simp] theorem jamParticle_assets (env : Env) (s : SimState) (h : Drone) :
    (jamParticle env s h).assets = s.assets := rfl

@[simp] theorem damageTarget_friendly_hostiles (s : SimState) (i : ℕ) (d : ℚ) :
    (damageTarget s (TargetRef.friendly i) d).hostiles = s.hostiles := by
  unfold damageTarget; dsimp only; cases h : s.friendlies.get? i <;> simp [h]

@[simp] theorem damageTarget_friendly_assets (s : SimState) (i : ℕ) (d : ℚ) :
    (damageTarget s (TargetRef.friendly i) d).assets = s.assets := by
  unfold damageTarget; dsimp only; cases h : s.friendlies.get? i <;> simp [h]

@[simp] theorem damageTarget_hostile_friendlies (s : SimState) (i : ℕ) (d : ℚ) :
    (damageTarget s (TargetRef.hostile i) d).friendlies = s.friendlies := by
  unfold damageTarget; dsimp only; cases h : s.hostiles.get? i <;> simp [h]

@[simp] theorem damageTarget_hostile_assets (s : SimState) (i : ℕ) (d : ℚ) :
    (damageTarget s (TargetRef.hostile i) d).assets = s.assets := by
  unfold damageTarget; dsimp only; cases h : s.hostiles.get? i <;> simp [h]

@[simp] theorem damageTarget_asset_friendlies (s : SimState) (i : ℕ) (d : ℚ) :
    (damageTarget s (TargetRef.asset i) d).friendlies = s.friendlies := by
  unfold damageTarget; dsimp only; cases h : s.assets.get? i <;> simp [h]

@[simp] theorem damageTarget_asset_hostiles (s : SimState) (i : ℕ) (d : ℚ) :
    (damageTarget s (TargetRef.asset i) d).hostiles = s.hostiles := by
  unfold damageTarget; dsimp only; cases h : s.assets.get? i <;> simp [h]

theorem fireAt_fst_of_cool (env : Env) (s : SimState) (self : Drone) (t : TargetRef)
    (c : String) (d : ℚ) (h : ¬(env.now - self.lastFired < 100)) :
    (fireAt env s self t c d).1 = { self with lastFired := env.now } := by
  unfold fireAt; rw [if_neg h]

theorem fireAt_fst_cases (env : Env) (s : SimState) (self : Drone) (t : TargetRef)
    (c : String) (d : ℚ) :
    (fireAt env s self t c d).1 = self ∨
      (fireAt env s self t c d).1 = { self with lastFired := env.now } := by
  unfold fireAt; dsimp only; split
  · exact Or.inl rfl
  · exact Or.inr rfl

@[simp] theorem fireAt_friendly_assets (env : Env) (s : SimState) (self : Drone) (i : ℕ)
    (c : String) (d : ℚ) :
    (fireAt env s self (TargetRef.friendly i) c d).2.assets = s.assets := by
  unfold fireAt; dsimp only; split
  · rfl
  · simp

@[simp] theorem fireAt_friendly_hostiles (env : Env) (s : SimState) (self : Drone) (i : ℕ)
    (c : String) (d : ℚ) :
    (fireAt env s self (TargetRef.friendly i) c d).2.hostiles = s.hostiles := by
  unfold fireAt; dsimp only; split
  · rfl
  · simp

@[simp] theorem fireAt_hostile_assets (env : Env) (s : SimState) (self : Drone) (i : ℕ)
    (c : String) (d : ℚ) :
    (fireAt env s self (TargetRef.hostile i) c d).2.assets = s.assets := by
  unfold fireAt; dsimp only; split
  · rfl
  · simp

@[simp] theorem fireAt_hostile_friendlies (env : Env) (s : SimState) (self : Drone) (i : ℕ)
    (c : String) (d : ℚ) :
    (fireAt env s self (TargetRef.hostile i) c d).2.friendlies = s.friendlies := by
  unfold fireAt; dsimp only; split
  · rfl
  · simp

@[simp] theorem fireAt_asset_friendlies (env : Env) (s : SimState) (self : Drone) (i : ℕ)
    (c : String) (d : ℚ) :
    (fireAt env s self (TargetRef.asset i) c d).2.friendlies = s.friendlies := by
  unfold fireAt; dsimp only; split
  · rfl
  · simp

@[simp] theorem fireAt_asset_hostiles (env : Env) (s : SimState) (self : Drone) (i : ℕ)
    (c : String) (d : ℚ) :
    (fireAt env s self (TargetRef.asset i) c d).2.hostiles = s.hostiles := by
  unfold fireAt; dsimp only; split
  · rfl
  · simp

theorem hostileMovement_assets (s : SimState) (k : ℕ) (self : Drone) (v : ℚ)
    (na nf : Option (ℕ × ℚ)) :
    (hostileMovement s k self v na nf).assets = s.assets := by
  unfold hostileMovement
  cases na with
  | some ab =>
    dsimp only; split
    · cases s.assets.get? ab.1 <;> rfl
    · rfl
  | none =>
    cases nf with
    | some fb => dsimp only; cases s.friendlies.get? fb.1 <;> rfl
    | none => rfl

theorem hostileMovement_friendlies (s : SimState) (k : ℕ) (self : Drone) (v : ℚ)
    (na nf : Option (ℕ × ℚ)) :
    (hostileMovement s k self v na nf).friendlies = s.friendlies := by
  unfold hostileMovement
  cases na with
  | some ab =>
    dsimp only; split
    · cases s.assets.get? ab.1 <;> rfl
    · rfl
  | none =>
    cases nf with
    | some fb => dsimp only; cases s.friendlies.get? fb.1 <;> rfl
    | none => rfl

/-- The separation pass is the identity when no other drone lies strictly
inside the separation radius of this one. -/
theorem applySeparation_of_isolated (self : Drone) (k : ℕ) (l : List Drone)
    (h : ∀ p ∈ l.enum, p.1 ≠ k →
      ¬(dist2 self.x self.y p.2.x p.2.y < 40 * 40 ∧
        0 < dist2 self.x self.y p.2.x p.2.y)) :
    applySeparation self k l 40 = self := by
  unfold applySeparation
  have hstep : ∀ acc p, p ∈ l.enum → sepStep self k 40 acc p = acc := by
    intro acc p hp
    unfold sepStep
    by_cases h1 : p.1 ≠ k ∧ 0 < p.2.health
    · rw [if_pos h1]
      dsimp only
      rw [if_neg (h p hp h1.1)]
    · rw [if_neg h1]
  rw [foldl_id (sepStep self k 40) l.enum ((0 : ℚ), (0 : ℚ), (0 : ℕ)) hstep]
  norm_num

/-- C7: under the extended-line formation with friendly roster size M, the
patrol slot offset of index i is x = (i - M/2) * spacing with y = 0 relative
to the asset centroid, for every index including 0 and M - 1; consequently a
drone already sitting on its slot (with no separation neighbor) holds its
position during formation patrol. -/
theorem C7_extendedLine_offset :
    (∀ (i M : ℕ),
      patrolSlot FormationType.extendedLine i M = (((i : ℚ) - (M : ℚ) / 2) * 50, 0)) ∧
    (∀ (env : Env) (self : Drone) (k : ℕ) (assets : List Asset) (fl : List Drone),
      assets ≠ [] → env.formation = FormationType.extendedLine →
      self.x = (assetsCentroid assets).1 + ((k : ℚ) - (fl.length : ℚ) / 2) * 50 →
      self.y = (assetsCentroid assets).2 →
      (∀ p ∈ fl.enum, p.1 ≠ k →
        ¬(dist2 self.x self.y p.2.x p.2.y < 40 * 40 ∧
          0 < dist2 self.x self.y p.2.x p.2.y)) →
      (patrolPosition env self k assets fl).x = self.x ∧
      (patrolPosition env self k assets fl).y = self.y) := by
  constructor
  · intro i M; rfl
  · intro env self k assets fl ha hf hx hy hsep
    unfold patrolPosition
    rw [if_neg (by simpa using (List.length_eq_zero).not.mpr ha)]
    dsimp only
    rw [if_neg (by simp [hf])]
    have hslot : patrolSlot env.formation k fl.length =
        (((k : ℚ) - (fl.length : ℚ) / 2) * 50, 0) := by rw [hf]; rfl
    rw [hslot]
    dsimp only
    have htx : (assetsCentroid assets).1 + ((k : ℚ) - (fl.length : ℚ) / 2) * 50 = self.x :=
      hx.symm
    have hty : (assetsCentroid assets).2 + 0 = self.y := by rw [add_zero]; exact hy.symm
    rw [htx, hty]
    have hd0 : dist2 self.x self.y self.x self.y = 0 := by simp [dist2]
    rw [hd0, if_neg (by norm_num)]
    rw [applySeparation_of_isolated self k fl hsep]
    exact ⟨rfl, rfl⟩

/-- C7 witness: a singleton roster drone on its slot next to one asset. -/
theorem C7_extendedLine_offset_witness :
    ([aC] ≠ ([] : List Asset)) ∧
    fSlot.x = (assetsCentroid [aC]).1 + (((0 : ℕ) : ℚ) - (([fSlot] : List Drone).length : ℚ) / 2) * 50 ∧
    (patrolPosition envLine fSlot 0 [aC] [fSlot]).x = fSlot.x ∧
    (patrolPosition envLine fSlot 0 [aC] [fSlot]).y = fSlot.y := by
  refine ⟨by decide, by norm_num [assetsCentroid, aC, fSlot, mkDrone], ?_⟩
  exact C7_extendedLine_offset.2 envLine fSlot 0 [aC] [fSlot] (by decide) rfl
    (by norm_num [assetsCentroid, aC, fSlot, mkDrone])
    (by norm_num [assetsCentroid, aC, fSlot, mkDrone])
    (by decide)

/-- C8: firing is wall-clock rate-limited: a fireAt call before the 100ms
cooldown has elapsed is a complete no-op (attacker, target health and
particle collection unchanged); a successful fire stamps lastFired with the
current time, and a subsequent call within 100ms of a successful fire is
again a no-op, so a drone fires at most once per cooldown interval. -/
theorem C8_fireAt_cooldown :
    (∀ (env : Env) (s : SimState) (self : Drone) (tgt : TargetRef) (c : String) (d : ℚ),
      env.now - self.lastFired < 100 → fireAt env s self tgt c d = (self, s)) ∧
    (∀ (env : Env) (s : SimState) (self : Drone) (tgt : TargetRef) (c : String) (d : ℚ),
      ¬(env.now - self.lastFired < 100) →
        (fireAt env s self tgt c d).1.lastFired = env.now) ∧
    (∀ (env env2 : Env) (s s2 : SimState) (self : Drone) (t t2 : TargetRef)
        (c c2 : String) (d d2 : ℚ),
      ¬(env.now - self.lastFired < 100) → env2.now - env.now < 100 →
      fireAt env2 s2 (fireAt env s self t c d).1 t2 c2 d2
        = ((fireAt env s self t c d).1, s2)) := by
  have noop : ∀ (env : Env) (s : SimState) (self : Drone) (tgt : TargetRef)
      (c : String) (d : ℚ), env.now - self.lastFired < 100 →
      fireAt env s self tgt c d = (self, s) := by
    intro env s self tgt c d h
    unfold fireAt
    rw [if_pos h]
  have stamp : ∀ (env : Env) (s : SimState) (self : Drone) (tgt : TargetRef)
      (c : String) (d : ℚ), ¬(env.now - self.lastFired < 100) →
      (fireAt env s self tgt c d).1.lastFired = env.now := by
    intro env s self tgt c d h
    unfold fireAt
    rw [if_neg h]
  refine ⟨noop, stamp, ?_⟩
  intro env env2 s s2 self t t2 c c2 d d2 h1 h2
  apply noop
  rw [stamp env s self t c d h1]
  exact h2

/-- C8 witness: a drone that fired at wall-clock time 100000 cannot fire
again at time 100050. -/
theorem C8_fireAt_cooldown_witness :
    (¬(envOn.now - fTgt.lastFired < 100)) ∧ (envLate.now - envOn.now < 100) ∧
    fireAt envLate s1 (fireAt envOn s1 fTgt (TargetRef.hostile 0) "#fbbf24" 2).1
        (TargetRef.hostile 0) "#fbbf24" 2
      = ((fireAt envOn s1 fTgt (TargetRef.hostile 0) "#fbbf24" 2).1, s1) :=
  ⟨by norm_num [envOn, fTgt, mkDrone], by norm_num [envOn, envLate],
    C8_fireAt_cooldown.2.2 envOn envLate s1 s1 fTgt (TargetRef.hostile 0)
      (TargetRef.hostile 0) "#fbbf24" "#fbbf24" 2 2 (by norm_num [envOn, fTgt, mkDrone])
      (by norm_num [envOn, envLate])⟩

/-- C9: the ratio denominators are guarded at every engine call site: the
engagement-ratio denominator (the friendly roster size) is nonzero whenever
the updating drone is itself a member of the roster (as at the engine's only
call site), and the centroid computations of the formation or defensive
logic are reached only behind the empty-roster guard, which returns the
drone unchanged. -/
theorem C9_division_guards :
    (∀ (fl : List Drone) (self : Drone), self ∈ fl → ((fl.length : ℚ) ≠ 0)) ∧
    (∀ (env : Env) (self : Drone) (k : ℕ) (fl : List Drone),
      patrolPosition env self k [] fl = self) ∧
    (∀ self : Drone, maintainDefensivePosition self [] = self) ∧
    (∀ assets : List Asset, assets ≠ [] → ((assets.length : ℚ) ≠ 0)) := by
  refine ⟨?_, ?_, ?_, ?_⟩
  · intro fl self hm
    have h : 0 < fl.length := List.length_pos.mpr (List.ne_nil_of_mem hm)
    exact_mod_cast Nat.pos_iff_ne_zero.mp h
  · intro env self k fl; rfl
  · intro self; rfl
  · intro assets ha
    have h : 0 < assets.length := List.length_pos.mpr ha
    exact_mod_cast Nat.pos_iff_ne_zero.mp h

/-- C9 witness. -/
theorem C9_division_guards_witness :
    f1 ∈ [f1] ∧ (([f1] : List Drone).length : ℚ) ≠ 0 ∧
    patrolPosition envOn f1 0 [] [f1] = f1 ∧
    maintainDefensivePosition f1 [] = f1 ∧
    (([aC] : List Asset).length : ℚ) ≠ 0 :=
  ⟨by decide, C9_division_guards.1 [f1] f1 (by decide),
    C9_division_guards.2.1 envOn f1 0 [f1],
    C9_division_guards.2.2.1 f1,
    C9_division_guards.2.2.2 [aC] (by decide)⟩

/-- C5 counterexample: a friendly bomber scoring hostiles while a live
friendly bomber exists (itself).  The hostile bomber's score exceeds the
equally-placed hostile interceptor's score by 500 — a bonus, not the
penalty the claim asserts for every scorer whenever a friendly bomber
lives. -/
theorem C5_counterexample :
    friendlyBombersExist [selfB] = true ∧ selfB.type = DKind.bomber ∧
    hostB.type = DKind.bomber ∧ hostI.type = DKind.drone ∧
    hostB.x = hostI.x ∧ hostB.y = hostI.y ∧
    calculateThreatScore selfB 0 hostB [] [selfB] true -
      calculateThreatScore selfB 0 hostI [] [selfB] true = 500 := by
  refine ⟨?_, rfl, rfl, rfl, rfl, rfl, ?_⟩
  · norm_num [friendlyBombersExist, selfB, mkDrone]
  · norm_num [calculateThreatScore, nearestAssetPrio, friendlyBombersExist,
      engagementCount, ratSqrt, dist2, selfB, hostB, hostI, mkDrone,
      int_toNat_ofNat, List.enum, List.enumFrom, List.filter]
    simp

/-- C5 amended: the type-preference term of the threat score depends on the
scorer as well: when the scoring drone is an interceptor and a live friendly
bomber exists, a hostile bomber scores 2500 below an equally-placed hostile
interceptor (interceptor bonus 2000, bomber penalty 500); in every other
case — in particular whenever the scorer is itself a bomber — a hostile
bomber scores a flat 500 above an equally-placed hostile interceptor. -/
theorem C5_amended_type_preference (self : Drone) (k : ℕ) (h : Drone)
    (assets : List Asset) (fl : List Drone) (comm : Bool) :
    calculateThreatScore self k { h with type := DKind.bomber } assets fl comm -
      calculateThreatScore self k { h with type := DKind.drone } assets fl comm =
    (if self.type = DKind.drone ∧ friendlyBombersExist fl then -2500 else 500) := by
  unfold calculateThreatScore
  dsimp only
  by_cases hc : self.type = DKind.drone ∧ friendlyBombersExist fl = true
  · rw [if_pos hc, if_pos hc, if_pos hc, if_neg (show ¬(DKind.bomber = DKind.drone) by decide)]
    norm_num
  · rw [if_neg hc, if_neg hc, if_neg hc, if_pos rfl,
      if_neg (show ¬(DKind.drone = DKind.bomber) by decide)]
    norm_num

/-- C6: the hostile per-tick priority chain is exclusive: whenever a hostile
that is not jammed has its nearest friendly within firing range (the
self-defense case), its update leaves every ground asset untouched. -/
theorem C6_selfdefense_exclusive (env : Env) (s : SimState) (k : ℕ) (h : Drone)
    (fb : ℕ × ℚ)
    (hk : s.hostiles.get? k = some h) (hj : h.isJammed = false)
    (hnf : nearestIdx h.x h.y (s.friendlies.map (fun f => (f.x, f.y))) = some fb)
    (hclose : fb.2 ≤ FIRING_RANGE * FIRING_RANGE) :
    (hostileUpdateAt env s k).assets = s.assets := by
  unfold hostileUpdateAt
  rw [hk]
  dsimp only
  rw [hostileMovement_assets]
  have hj2 : ({ h with jammingTargets := [] } : Drone).isJammed = false := hj
  rw [if_pos (by rw [hj2]; exact Bool.false_ne_true)]
  unfold hostileCombat
  simp only [setH_friendlies]
  rw [hnf]
  dsimp only
  rw [if_pos hclose]
  simp

/-- C6 witness: a hostile with both a friendly and an asset inside firing
range leaves the asset untouched. -/
theorem C6_selfdefense_exclusive_witness :
    s6.hostiles.get? 0 = some hN ∧ hN.isJammed = false ∧
    nearestIdx hN.x hN.y (s6.friendlies.map (fun f => (f.x, f.y))) = some (0, 900) ∧
    ((0, 900) : ℕ × ℚ).2 ≤ FIRING_RANGE * FIRING_RANGE ∧
    (hostileUpdateAt envOn s6 0).assets = s6.assets :=
  ⟨rfl, rfl,
    by norm_num [nearestIdx, s6, fN, hN, mkDrone, dist2, List.enum, List.enumFrom],
    by norm_num [FIRING_RANGE],
    C6_selfdefense_exclusive envOn s6 0 hN (0, 900) rfl rfl
      (by norm_num [nearestIdx, s6, fN, hN, mkDrone, dist2, List.enum, List.enumFrom])
      (by norm_num [FIRING_RANGE])⟩

/-- The moveTo displacement is exactly linear in the speed: at 20% speed the
per-call displacement is exactly 20% of the full-speed displacement. -/
theorem moveTo_scale (self : Drone) (tx ty v : ℚ) :
    (self.moveTo tx ty (v * 0.2)).x - self.x = 0.2 * ((self.moveTo tx ty v).x - self.x) ∧
    (self.moveTo tx ty (v * 0.2)).y - self.y = 0.2 * ((self.moveTo tx ty v).y - self.y) := by
  unfold Drone.moveTo
  dsimp only
  by_cases hd : 1 < (tx - self.x) * (tx - self.x) + (ty - self.y) * (ty - self.y)
  · rw [if_pos hd, if_pos hd]
    dsimp only
    constructor <;> ring
  · rw [if_neg hd, if_neg hd]
    constructor <;> simp

theorem hostileMovement_particles (s : SimState) (k : ℕ) (self : Drone) (v : ℚ)
    (na nf : Option (ℕ × ℚ)) :
    (hostileMovement s k self v na nf).particles = s.particles := by
  unfold hostileMovement
  cases na with
  | some ab =>
    dsimp only; split
    · cases s.assets.get? ab.1 <;> rfl
    · rfl
  | none =>
    cases nf with
    | some fb => dsimp only; cases s.friendlies.get? fb.1 <;> rfl
    | none => rfl

/-- Weapon damage changes only the health of the referenced asset: the
coordinate columns are untouched. -/
theorem damageTarget_asset_coords (s : SimState) (i : ℕ) (d : ℚ) :
    (damageTarget s (TargetRef.asset i) d).assets.map (fun a => (a.x, a.y))
      = s.assets.map (fun a => (a.x, a.y)) := by
  unfold damageTarget
  dsimp only
  cases hg : s.assets.get? i with
  | none => rfl
  | some a =>
    dsimp only
    rw [setA_assets, map_set_comm]
    exact set_same _ i _ (by rw [List.get?_map, hg]; rfl)

/-- Weapon damage changes only the health of the referenced friendly. -/
theorem damageTarget_friendly_coords (s : SimState) (i : ℕ) (d : ℚ) :
    (damageTarget s (TargetRef.friendly i) d).friendlies.map (fun f => (f.x, f.y))
      = s.friendlies.map (fun f => (f.x, f.y)) := by
  unfold damageTarget
  dsimp only
  cases hg : s.friendlies.get? i with
  | none => rfl
  | some a =>
    dsimp only
    rw [setF_friendlies, map_set_comm]
    exact set_same _ i _ (by rw [List.get?_map, hg]; rfl)

theorem fireAt_friendly_coords (env : Env) (s : SimState) (self : Drone) (i : ℕ)
    (c : String) (d : ℚ) :
    (fireAt env s self (TargetRef.friendly i) c d).2.friendlies.map (fun f => (f.x, f.y))
      = s.friendlies.map (fun f => (f.x, f.y)) := by
  unfold fireAt
  dsimp only
  split
  · rfl
  · simp only [hitParticle_friendlies]
    exact damageTarget_friendly_coords s i d

theorem fireAt_asset_coords (env : Env) (s : SimState) (self : Drone) (i : ℕ)
    (c : String) (d : ℚ) :
    (fireAt env s self (TargetRef.asset i) c d).2.assets.map (fun a => (a.x, a.y))
      = s.assets.map (fun a => (a.x, a.y)) := by
  unfold fireAt
  dsimp only
  split
  · rfl
  · simp only [hitParticle_assets]
    exact damageTarget_asset_coords s i d

theorem fireAt_fst_x (env : Env) (s : SimState) (self : Drone) (t : TargetRef)
    (c : String) (d : ℚ) : (fireAt env s self t c d).1.x = self.x := by
  rcases fireAt_fst_cases env s self t c d with h | h <;> rw [h]

theorem fireAt_fst_y (env : Env) (s : SimState) (self : Drone) (t : TargetRef)
    (c : String) (d : ℚ) : (fireAt env s self t c d).1.y = self.y := by
  rcases fireAt_fst_cases env s self t c d with h | h <;> rw [h]

theorem moveTo_disp_congr (d1 d2 : Drone) (tx ty v : ℚ)
    (hx : d1.x = d2.x) (hy : d1.y = d2.y) :
    (d1.moveTo tx ty v).x - d1.x = (d2.moveTo tx ty v).x - d2.x ∧
    (d1.moveTo tx ty v).y - d1.y = (d2.moveTo tx ty v).y - d2.y := by
  unfold Drone.moveTo
  dsimp only
  rw [hx, hy]
  by_cases hd : 1 < (tx - d2.x) * (tx - d2.x) + (ty - d2.y) * (ty - d2.y)
  · rw [if_pos hd, if_pos hd]; constructor <;> simp [hx, hy]
  · rw [if_neg hd, if_neg hd]; constructor <;> simp [hx, hy]

/-- The movement phase scales exactly with the speed argument: at 20% speed
and from the same position (with equal target coordinates in both states),
the displacement is exactly 20% of the full-speed displacement. -/
theorem hostileMovement_scale (s1 s2 : SimState) (k1 k2 : ℕ) (d1 d2 : Drone) (v : ℚ)
    (na nf : Option (ℕ × ℚ))
    (hx : d1.x = d2.x) (hy : d1.y = d2.y)
    (hg1 : s1.hostiles.get? k1 = some d1) (hg2 : s2.hostiles.get? k2 = some d2)
    (hassets : s1.assets.map (fun a => (a.x, a.y)) = s2.assets.map (fun a => (a.x, a.y)))
    (hfr : s1.friendlies.map (fun f => (f.x, f.y))
      = s2.friendlies.map (fun f => (f.x, f.y))) :
    ∃ e1 e2, (hostileMovement s1 k1 d1 (v * 0.2) na nf).hostiles.get? k1 = some e1 ∧
      (hostileMovement s2 k2 d2 v na nf).hostiles.get? k2 = some e2 ∧
      e1.x - d1.x = 0.2 * (e2.x - d2.x) ∧ e1.y - d1.y = 0.2 * (e2.y - d2.y) := by
  obtain ⟨hkl1, -⟩ := List.get?_eq_some.mp hg1
  obtain ⟨hkl2, -⟩ := List.get?_eq_some.mp hg2
  unfold hostileMovement
  cases na with
  | some ab =>
    dsimp only
    by_cases hab : (FIRING_RANGE * 0.8) * (FIRING_RANGE * 0.8) < ab.2
    · rw [if_pos hab, if_pos hab]
      have hcoords : (s1.assets.get? ab.1).map (fun a => (a.x, a.y))
          = (s2.assets.get? ab.1).map (fun a => (a.x, a.y)) := by
        rw [← List.get?_map, ← List.get?_map, hassets]
      cases h1 : s1.assets.get? ab.1 with
      | none =>
        cases h2 : s2.assets.get? ab.1 with
        | some a2 =>
          rw [h1, h2] at hcoords
          exact absurd hcoords (by simp [Option.map_none', Option.map_some'])
        | none => exact ⟨d1, d2, hg1, hg2, by simp, by simp⟩
      | some a1 =>
        cases h2 : s2.assets.get? ab.1 with
        | none =>
          rw [h1, h2] at hcoords
          exact absurd hcoords (by simp [Option.map_none', Option.map_some'])
        | some a2 =>
          rw [h1, h2] at hcoords
          simp only [Option.map_some', Option.some.injEq, Prod.mk.injEq] at hcoords
          refine ⟨d1.moveTo a1.x a1.y (v * 0.2), d2.moveTo a2.x a2.y v, ?_, ?_, ?_, ?_⟩
          · rw [setH_hostiles]; exact List.get?_set_eq_of_lt _ hkl1
          · rw [setH_hostiles]; exact List.get?_set_eq_of_lt _ hkl2
          · rw [(moveTo_scale d1 a1.x a1.y v).1, hcoords.1, hcoords.2]
            rw [(moveTo_disp_congr d1 d2 a2.x a2.y v hx hy).1]
          · rw [(moveTo_scale d1 a1.x a1.y v).2, hcoords.1, hcoords.2]
            rw [(moveTo_disp_congr d1 d2 a2.x a2.y v hx hy).2]
    · rw [if_neg hab, if_neg hab]
      exact ⟨d1, d2, hg1, hg2, by simp, by simp⟩
  | none =>
    cases nf with
    | some fb =>
      dsimp only
      have hcoords : (s1.friendlies.get? fb.1).map (fun f => (f.x, f.y))
          = (s2.friendlies.get? fb.1).map (fun f => (f.x, f.y)) := by
        rw [← List.get?_map, ← List.get?_map, hfr]
      cases h1 : s1.friendlies.get? fb.1 with
      | none =>
        cases h2 : s2.friendlies.get? fb.1 with
        | some f2 =>
          rw [h1, h2] at hcoords
          exact absurd hcoords (by simp [Option.map_none', Option.map_some'])
        | none => exact ⟨d1, d2, hg1, hg2, by simp, by simp⟩
      | some f1 =>
        cases h2 : s2.friendlies.get? fb.1 with
        | none =>
          rw [h1, h2] at hcoords
          exact absurd hcoords (by simp [Option.map_none', Option.map_some'])
        | some f2 =>
          rw [h1, h2] at hcoords
          simp only [Option.map_some', Option.some.injEq, Prod.mk.injEq] at hcoords
          refine ⟨d1.moveTo f1.x f1.y (v * 0.2), d2.moveTo f2.x f2.y v, ?_, ?_, ?_, ?_⟩
          · rw [setH_hostiles]; exact List.get?_set_eq_of_lt _ hkl1
          · rw [setH_hostiles]; exact List.get?_set_eq_of_lt _ hkl2
          · rw [(moveTo_scale d1 f1.x f1.y v).1, hcoords.1, hcoords.2]
            rw [(moveTo_disp_congr d1 d2 f2.x f2.y v hx hy).1]
          · rw [(moveTo_scale d1 f1.x f1.y v).2, hcoords.1, hcoords.2]
            rw [(moveTo_disp_congr d1 d2 f2.x f2.y v hx hy).2]
    | none => exact ⟨d1, d2, hg1, hg2, by simp, by simp⟩

/-- When the priority-3 approach move is ruled out, the combat phase leaves
the hostile's position, and every entity coordinate, unchanged. -/
theorem hostileCombat_no_approach (env : Env) (s : SimState) (k : ℕ) (self : Drone)
    (v : ℚ) (na nf : Option (ℕ × ℚ))
    (hp3 : ∀ fb, nf = some fb → fb.2 ≤ FIRING_RANGE * FIRING_RANGE ∨
        (FIRING_RANGE * 1.5) * (FIRING_RANGE * 1.5) < fb.2 ∨
        (∃ ab, na = some ab ∧ ab.2 ≤ FIRING_RANGE * FIRING_RANGE))
    (hg : s.hostiles.get? k = some self) :
    (hostileCombat env s k self v na nf).1.hostiles.get? k
        = some (hostileCombat env s k self v na nf).2 ∧
    (hostileCombat env s k self v na nf).2.x = self.x ∧
    (hostileCombat env s k self v na nf).2.y = self.y ∧
    (hostileCombat env s k self v na nf).1.assets.map (fun a => (a.x, a.y))
        = s.assets.map (fun a => (a.x, a.y)) ∧
    (hostileCombat env s k self v na nf).1.friendlies.map (fun f => (f.x, f.y))
        = s.friendlies.map (fun f => (f.x, f.y)) := by
  obtain ⟨hkl, -⟩ := List.get?_eq_some.mp hg
  unfold hostileCombat
  cases hnf : nf with
  | none =>
    cases hna : na with
    | none => exact ⟨hg, rfl, rfl, rfl, rfl⟩
    | some ab =>
      dsimp only
      by_cases hab : ab.2 ≤ FIRING_RANGE * FIRING_RANGE
      · rw [if_pos hab]
        refine ⟨?_, fireAt_fst_x _ _ _ _ _ _, fireAt_fst_y _ _ _ _ _ _, ?_, ?_⟩
        · dsimp only
          rw [setH_hostiles, fireAt_asset_hostiles]
          exact List.get?_set_eq_of_lt _ hkl
        · dsimp only
          rw [setH_assets]
          exact fireAt_asset_coords env s self ab.1 "#f97316" _
        · dsimp only
          rw [setH_friendlies, fireAt_asset_friendlies]
      · rw [if_neg hab]
        exact ⟨hg, rfl, rfl, rfl, rfl⟩
  | some fb =>
    dsimp only
    by_cases hfb : fb.2 ≤ FIRING_RANGE * FIRING_RANGE
    · rw [if_pos hfb]
      refine ⟨?_, fireAt_fst_x _ _ _ _ _ _, fireAt_fst_y _ _ _ _ _ _, ?_, ?_⟩
      · dsimp only
        rw [setH_hostiles, fireAt_friendly_hostiles]
        exact List.get?_set_eq_of_lt _ hkl
      · dsimp only
        rw [setH_assets, fireAt_friendly_assets]
      · dsimp only
        rw [setH_friendlies]
        exact fireAt_friendly_coords env s self fb.1 "#ef4444" _
    · rw [if_neg hfb]
      rcases hp3 fb hnf with hcon | hfar | ⟨ab, hab, habr⟩
      · exact absurd hcon hfb
      · cases hna : na with
        | none =>
          dsimp only
          rw [if_neg (by exact fun hle => absurd hfar (not_lt.mpr hle))]
          exact ⟨hg, rfl, rfl, rfl, rfl⟩
        | some ab =>
          dsimp only
          by_cases habr : ab.2 ≤ FIRING_RANGE * FIRING_RANGE
          · rw [if_pos habr]
            refine ⟨?_, fireAt_fst_x _ _ _ _ _ _, fireAt_fst_y _ _ _ _ _ _, ?_, ?_⟩
            · dsimp only
              rw [setH_hostiles, fireAt_asset_hostiles]
              exact List.get?_set_eq_of_lt _ hkl
            · dsimp only
              rw [setH_assets]
              exact fireAt_asset_coords env s self ab.1 "#f97316" _
            · dsimp only
              rw [setH_friendlies, fireAt_asset_friendlies]
          · rw [if_neg habr]
            rw [if_neg (by exact fun hle => absurd hfar (not_lt.mpr hle))]
            exact ⟨hg, rfl, rfl, rfl, rfl⟩
      · rw [hab]
        dsimp only
        rw [if_pos habr]
        refine ⟨?_, fireAt_fst_x _ _ _ _ _ _, fireAt_fst_y _ _ _ _ _ _, ?_, ?_⟩
        · dsimp only
          rw [setH_hostiles, fireAt_asset_hostiles]
          exact List.get?_set_eq_of_lt _ hkl
        · dsimp only
          rw [setH_assets]
          exact fireAt_asset_coords env s self ab.1 "#f97316" _
        · dsimp only
          rw [setH_friendlies, fireAt_asset_friendlies]

/-- The jammed hostile update is exactly the movement phase at 20% of the
nominal type speed: the whole combat chain is skipped. -/
theorem hostileUpdateAt_jammed_eq (env : Env) (s : SimState) (k : ℕ) (h : Drone)
    (hk : s.hostiles.get? k = some h) (hj : h.isJammed = true) :
    hostileUpdateAt env s k =
      hostileMovement (setH s k { h with jammingTargets := [] }) k
        { h with jammingTargets := [] }
        ((if h.type = DKind.bomber then BOMBER_SPEED else HOSTILE_SPEED) * 0.2)
        (nearestIdx h.x h.y (s.assets.map (fun a => (a.x, a.y))))
        (nearestIdx h.x h.y (s.friendlies.map (fun f => (f.x, f.y)))) := by
  unfold hostileUpdateAt
  rw [hk]
  dsimp only
  rw [if_pos (show ({ h with jammingTargets := ([] : List String) } : Drone).isJammed
      = true from hj)]
  rw [if_neg (show ¬¬(({ h with jammingTargets := ([] : List String) } : Drone).isJammed
      = true) from not_not_intro hj)]
  rfl

/-- The unjammed hostile update is the combat chain at nominal speed
followed by the movement phase at nominal speed. -/
theorem hostileUpdateAt_unjammed_eq (env : Env) (s : SimState) (k : ℕ) (h : Drone)
    (hk : s.hostiles.get? k = some h) (hj : h.isJammed = false) :
    hostileUpdateAt env s k =
      (let v := if h.type = DKind.bomber then BOMBER_SPEED else HOSTILE_SPEED
       let na := nearestIdx h.x h.y (s.assets.map (fun a => (a.x, a.y)))
       let nf := nearestIdx h.x h.y (s.friendlies.map (fun f => (f.x, f.y)))
       let combat := hostileCombat env (setH s k { h with jammingTargets := [] }) k
         { h with jammingTargets := [] } v na nf
       hostileMovement combat.1 k combat.2 v na nf) := by
  unfold hostileUpdateAt
  rw [hk]
  dsimp only
  rw [if_neg (show ¬(({ h with jammingTargets := ([] : List String) } : Drone).isJammed
      = true) from by rw [show ({ h with jammingTargets := ([] : List String) }
        : Drone).isJammed = false from hj]; exact Bool.false_ne_true)]
  rw [if_pos (show ¬(({ h with jammingTargets := ([] : List String) } : Drone).isJammed
      = true) from by rw [show ({ h with jammingTargets := ([] : List String) }
        : Drone).isJammed = false from hj]; exact Bool.false_ne_true)]
  rfl

/-- Combat followed by movement, against movement alone at 20% speed, from
the same start: when the approach move is ruled out the displacements are in
exact 1-to-5 proportion. -/
theorem combat_then_movement_scale (env : Env) (s1 s2 : SimState) (k1 k2 : ℕ)
    (d1 d2 : Drone) (v : ℚ) (na nf : Option (ℕ × ℚ))
    (hx : d1.x = d2.x) (hy : d1.y = d2.y)
    (hg1 : s1.hostiles.get? k1 = some d1) (hg2 : s2.hostiles.get? k2 = some d2)
    (hassets : s1.assets.map (fun a => (a.x, a.y)) = s2.assets.map (fun a => (a.x, a.y)))
    (hfr : s1.friendlies.map (fun f => (f.x, f.y))
      = s2.friendlies.map (fun f => (f.x, f.y)))
    (hp3 : ∀ fb, nf = some fb → fb.2 ≤ FIRING_RANGE * FIRING_RANGE ∨
        (FIRING_RANGE * 1.5) * (FIRING_RANGE * 1.5) < fb.2 ∨
        (∃ ab, na = some ab ∧ ab.2 ≤ FIRING_RANGE * FIRING_RANGE)) :
    ∃ e1 e2, (hostileMovement s1 k1 d1 (v * 0.2) na nf).hostiles.get? k1 = some e1 ∧
      (hostileMovement (hostileCombat env s2 k2 d2 v na nf).1 k2
        (hostileCombat env s2 k2 d2 v na nf).2 v na nf).hostiles.get? k2 = some e2 ∧
      e1.x - d1.x = 0.2 * (e2.x - d2.x) ∧ e1.y - d1.y = 0.2 * (e2.y - d2.y) := by
  obtain ⟨hcg, hcx, hcy, hca, hcf⟩ := hostileCombat_no_approach env s2 k2 d2 v na nf hp3 hg2
  obtain ⟨e1, e2, he1, he2, hex, hey⟩ :=
    hostileMovement_scale s1 (hostileCombat env s2 k2 d2 v na nf).1 k1 k2 d1
      (hostileCombat env s2 k2 d2 v na nf).2 v na nf
      (hx.trans hcx.symm) (hy.trans hcy.symm) hg1 hcg
      (hassets.trans hca.symm) (hfr.trans hcf.symm)
  refine ⟨e1, e2, he1, he2, ?_, ?_⟩
  · rw [hex, hcx]
  · rw [hey, hcy]

/-- C4 amended: a jammed hostile fires at no entity during its update (all
friendly and asset healths and the particle collection are unchanged), and
whenever the unjammed run would not take the priority-3 approach move, the
jammed tick displacement is exactly 20% of the unjammed tick displacement.
The counterexample shows the unrestricted 20% displacement claim fails when
the approach move applies, because the unjammed hostile then moves twice. -/
theorem C4_amended_jam_effects :
    (∀ (env : Env) (s : SimState) (k : ℕ) (h : Drone),
      s.hostiles.get? k = some h → h.isJammed = true →
      (hostileUpdateAt env s k).friendlies = s.friendlies ∧
      (hostileUpdateAt env s k).assets = s.assets ∧
      (hostileUpdateAt env s k).particles = s.particles) ∧
    (∀ (env : Env) (s : SimState) (k : ℕ) (h : Drone),
      s.hostiles.get? k = some h → h.isJammed = true →
      (∀ fb, nearestIdx h.x h.y (s.friendlies.map (fun f => (f.x, f.y))) = some fb →
        fb.2 ≤ FIRING_RANGE * FIRING_RANGE ∨
        (FIRING_RANGE * 1.5) * (FIRING_RANGE * 1.5) < fb.2 ∨
        (∃ ab, nearestIdx h.x h.y (s.assets.map (fun a => (a.x, a.y))) = some ab ∧
          ab.2 ≤ FIRING_RANGE * FIRING_RANGE)) →
      ∃ dj du, (hostileUpdateAt env s k).hostiles.get? k = some dj ∧
        (hostileUpdateAt env (setH s k { h with isJammed := false }) k).hostiles.get? k
          = some du ∧
        dj.x - h.x = 0.2 * (du.x - h.x) ∧ dj.y - h.y = 0.2 * (du.y - h.y)) := by
  constructor
  · intro env s k h hk hj
    rw [hostileUpdateAt_jammed_eq env s k h hk hj]
    exact ⟨by rw [hostileMovement_friendlies, setH_friendlies],
      by rw [hostileMovement_assets, setH_assets],
      by rw [hostileMovement_particles, setH_particles]⟩
  · intro env s k h hk hj hp3
    obtain ⟨hkl, -⟩ := List.get?_eq_some.mp hk
    have hk2 : (setH s k { h with isJammed := false }).hostiles.get? k
        = some { h with isJammed := false } := by
      rw [setH_hostiles]; exact List.get?_set_eq_of_lt _ hkl
    rw [hostileUpdateAt_jammed_eq env s k h hk hj,
        hostileUpdateAt_unjammed_eq env (setH s k { h with isJammed := false }) k
          { h with isJammed := false } hk2 rfl]
    obtain ⟨e1, e2, he1, he2, hex, hey⟩ :=
      combat_then_movement_scale env
        (setH s k { h with jammingTargets := [] })
        (setH (setH s k { h with isJammed := false }) k
          { { h with isJammed := false } with jammingTargets := [] })
        k k
        { h with jammingTargets := [] }
        { { h with isJammed := false } with jammingTargets := [] }
        (if h.type = DKind.bomber then BOMBER_SPEED else HOSTILE_SPEED)
        (nearestIdx h.x h.y (s.assets.map (fun a => (a.x, a.y))))
        (nearestIdx h.x h.y (s.friendlies.map (fun f => (f.x, f.y))))
        rfl rfl
        (by rw [setH_hostiles]; exact List.get?_set_eq_of_lt _ hkl)
        (by rw [setH_hostiles]; exact List.get?_set_eq_of_lt _ (by simpa using hkl))
        (by simp) (by simp)
        hp3
    exact ⟨e1, e2, he1, he2, hex, hey⟩

/-- C4 counterexample: a hostile at the origin with one friendly 60 units
away and no assets.  Jammed, its tick displacement is (3/10, 0); the same
hostile unjammed displaces (3, 0) in that tick (the priority-3 approach move
plus the movement step), and 3/10 is not 20% of 3. -/
theorem C4_counterexample :
    hJ.isJammed = true ∧ hU = { hJ with isJammed := false } ∧
    (hostileUpdateAt envOn s4J 0).hostiles.map (fun d => (d.x - hJ.x, d.y - hJ.y))
      = [(3/10, 0)] ∧
    (hostileUpdateAt envOn s4U 0).hostiles.map (fun d => (d.x - hU.x, d.y - hU.y))
      = [(3, 0)] ∧
    ¬(((3:ℚ)/10 = 0.2 * 3) ∧ ((0:ℚ) = 0.2 * 0)) := by
  refine ⟨rfl, by decide, ?_, ?_, by norm_num⟩
  · norm_num +decide [hostileUpdateAt, hostileCombat, hostileMovement, nearestIdx,
      Drone.moveTo, ratSqrt, dist2, s4J, hJ, fTgt, mkDrone, envOn, setH, setF,
      FIRING_RANGE, HOSTILE_SPEED, BOMBER_SPEED, List.enum, List.enumFrom, List.foldl,
      int_toNat_ofNat]
  · norm_num +decide [hostileUpdateAt, hostileCombat, hostileMovement, nearestIdx,
      Drone.moveTo, fireAt, ratSqrt, dist2, s4U, hU, fTgt, mkDrone, envOn, setH, setF,
      FIRING_RANGE, HOSTILE_SPEED, BOMBER_SPEED, List.enum, List.enumFrom, List.foldl,
      int_toNat_ofNat]

/-- C4 witness: the jammed no-fire facts on s4J, and the exact 20% tick
displacement on s4b, where the only friendly is beyond the approach band. -/
theorem C4_amended_jam_effects_witness :
    (s4J.hostiles.get? 0 = some hJ ∧ hJ.isJammed = true ∧
      (hostileUpdateAt envOn s4J 0).friendlies = s4J.friendlies ∧
      (hostileUpdateAt envOn s4J 0).assets = s4J.assets ∧
      (hostileUpdateAt envOn s4J 0).particles = s4J.particles) ∧
    (∃ dj du, (hostileUpdateAt envOn s4b 0).hostiles.get? 0 = some dj ∧
      (hostileUpdateAt envOn (setH s4b 0 { hJ with isJammed := false }) 0).hostiles.get? 0
        = some du ∧
      dj.x - hJ.x = 0.2 * (du.x - hJ.x) ∧ dj.y - hJ.y = 0.2 * (du.y - hJ.y)) := by
  constructor
  · have h := C4_amended_jam_effects.1 envOn s4J 0 hJ rfl rfl
    exact ⟨rfl, rfl, h.1, h.2.1, h.2.2⟩
  · refine C4_amended_jam_effects.2 envOn s4b 0 hJ rfl rfl ?_
    intro fb hfb
    rw [show nearestIdx hJ.x hJ.y (s4b.friendlies.map (fun f => (f.x, f.y)))
        = some (0, 10000) from by
      norm_num [nearestIdx, s4b, fFar, hJ, mkDrone, dist2, List.enum, List.enumFrom]] at hfb
    cases hfb
    right; left
    norm_num [FIRING_RANGE]

/- Normal-path lemmas for the friendly update (communication on, no lost
marks anywhere): the rescue scan is the identity, the jamming sweep touches
only hostile healths and flags, and the decision tail sets the target and
engagement flag. -/

theorem rescueStep_no_marks (k : ℕ) : ∀ (L : List (ℕ × Drone)) (acc : RescueAcc),
    (∀ p ∈ L, p.2.lostCoords = none) → L.foldl (rescueStep k) acc = acc
  | [], _, _ => rfl
  | p :: t, acc, h => by
    rw [List.foldl_cons]
    have hstep : rescueStep k acc p = acc := by
      unfold rescueStep
      by_cases hk : p.1 ≠ k
      · rw [if_pos hk, h p (by simp)]
      · rw [if_neg hk]
    rw [hstep]
    exact rescueStep_no_marks k t acc (fun q hq => h q (by simp [hq]))

theorem rescueScan_no_marks (k : ℕ) (s : SimState) (self : Drone)
    (h : ∀ f ∈ s.friendlies, f.lostCoords = none) :
    rescueScan k s self = ⟨s, self, false⟩ := by
  unfold rescueScan
  exact rescueStep_no_marks k _ _ (fun p hp =>
    h p.2 (List.get?_mem (List.mem_enum_iff_get?.mp hp)))

theorem markLostIfFar_cases (s : SimState) (k : ℕ) (self : Drone) :
    markLostIfFar s k self = (s, self) ∨
    markLostIfFar s k self
      = (setF s k { self with lostCoords := some (self.x, self.y) },
         { self with lostCoords := some (self.x, self.y) }) := by
  unfold markLostIfFar
  dsimp only
  split
  · split
    · right; rfl
    · left; rfl
  · left; rfl

@[simp] theorem takeRand_snd_friendlies (env : Env) (s : SimState) :
    (takeRand env s).2.friendlies = s.friendlies := rfl

@[simp] theorem takeRand_snd_hostiles (env : Env) (s : SimState) :
    (takeRand env s).2.hostiles = s.hostiles := rfl

@[simp] theorem takeRand_snd_assets (env : Env) (s : SimState) :
    (takeRand env s).2.assets = s.assets := rfl

theorem jamStep_inv (env : Env) (k : ℕ) (acc : SimState × Drone) (i : ℕ)
    (hsync : acc.1.friendlies.get? k = some acc.2) :
    (jamStep env k acc i).1.friendlies.get? k = some (jamStep env k acc i).2 ∧
    idsH (jamStep env k acc i).1 = idsH acc.1 ∧
    (jamStep env k acc i).1.assets = acc.1.assets ∧
    (jamStep env k acc i).2.x = acc.2.x ∧ (jamStep env k acc i).2.y = acc.2.y ∧
    (jamStep env k acc i).2.type = acc.2.type ∧
    (jamStep env k acc i).2.id = acc.2.id := by
  obtain ⟨hkl, -⟩ := List.get?_eq_some.mp hsync
  unfold jamStep
  cases hg : acc.1.hostiles.get? i with
  | none => exact ⟨hsync, rfl, rfl, rfl, rfl, rfl, rfl⟩
  | some h =>
    dsimp only
    split
    · have hid : (acc.1.hostiles.set i
          { h with isJammed := true, health := h.health - 0.1 }).map (fun d => d.id)
          = acc.1.hostiles.map (fun d => d.id) := by
        rw [map_set_comm]
        exact set_same _ i _ (by rw [List.get?_map, hg]; rfl)
      refine ⟨?_, ?_, ?_, rfl, rfl, rfl, rfl⟩
      · split <;>
        · simp only [jamParticle_friendlies, takeRand_snd_friendlies, setF_friendlies]
          exact List.get?_set_eq_of_lt _ (by simpa using hkl)
      · unfold idsH
        split <;> simp [hid]
      · split <;> simp
    · exact ⟨hsync, rfl, rfl, rfl, rfl, rfl, rfl⟩

theorem jamStep_fold_inv (env : Env) (k : ℕ) : ∀ (L : List ℕ) (acc : SimState × Drone),
    acc.1.friendlies.get? k = some acc.2 →
    (L.foldl (jamStep env k) acc).1.friendlies.get? k
        = some (L.foldl (jamStep env k) acc).2 ∧
    idsH (L.foldl (jamStep env k) acc).1 = idsH acc.1 ∧
    (L.foldl (jamStep env k) acc).1.assets = acc.1.assets ∧
    (L.foldl (jamStep env k) acc).2.x = acc.2.x ∧
    (L.foldl (jamStep env k) acc).2.y = acc.2.y ∧
    (L.foldl (jamStep env k) acc).2.type = acc.2.type ∧
    (L.foldl (jamStep env k) acc).2.id = acc.2.id
  | [], _, h => ⟨h, rfl, rfl, rfl, rfl, rfl, rfl⟩
  | i :: t, acc, h => by
    rw [List.foldl_cons]
    have hstep := jamStep_inv env k acc i h
    have ih := jamStep_fold_inv env k t (jamStep env k acc i) hstep.1
    exact ⟨ih.1, ih.2.1.trans hstep.2.1, ih.2.2.1.trans hstep.2.2.1,
      ih.2.2.2.1.trans hstep.2.2.2.1, ih.2.2.2.2.1.trans hstep.2.2.2.2.1,
      ih.2.2.2.2.2.1.trans hstep.2.2.2.2.2.1, ih.2.2.2.2.2.2.trans hstep.2.2.2.2.2.2⟩

theorem jamSweep_inv (env : Env) (k : ℕ) (s : SimState) (self : Drone)
    (hsync : s.friendlies.get? k = some self) :
    (jamSweep env k s self).1.friendlies.get? k = some (jamSweep env k s self).2 ∧
    idsH (jamSweep env k s self).1 = idsH s ∧
    (jamSweep env k s self).1.assets = s.assets := by
  unfold jamSweep
  split
  · have h := jamStep_fold_inv env k (List.range s.hostiles.length) (s, self) hsync
    exact ⟨h.1, h.2.1, h.2.2.1⟩
  · exact ⟨hsync, rfl, rfl⟩

theorem selectTarget_some_mem (env : Env) (self : Drone) (k : ℕ) (s : SimState) (i : ℕ)
    (h : selectTarget env self k s = some i) : ∃ d, s.hostiles.get? i = some d := by
  unfold selectTarget at h
  obtain ⟨b, hb, hbi⟩ := Option.map_eq_some'.mp h
  have hinv := foldl_inv (scoreStep env self k s)
    (fun best => ∀ c, best = some c → ∃ d, s.hostiles.get? c.1 = some d)
    s.hostiles.enum none (fun c hc => by cases hc)
    (fun acc p hp hP => by
      unfold scoreStep
      cases acc with
      | none =>
        intro c hc
        cases hc
        exact ⟨p.2, List.mem_enum_iff_get?.mp hp⟩
      | some b0 =>
        dsimp only
        split
        · intro c hc
          cases hc
          exact ⟨p.2, List.mem_enum_iff_get?.mp hp⟩
        · exact hP)
  obtain ⟨d, hd⟩ := hinv b hb
  exact ⟨d, hbi ▸ hd⟩

theorem selectTarget_of_ne_nil (env : Env) (self : Drone) (k : ℕ) (s : SimState)
    (h : s.hostiles ≠ []) : ∃ i, selectTarget env self k s = some i := by
  unfold selectTarget
  cases hh : s.hostiles with
  | nil => exact absurd hh h
  | cons d t =>
    have hsome : ((d :: t).enum.foldl (scoreStep env self k s) none).isSome = true := by
      rw [List.enum_cons, List.foldl_cons]
      exact foldl_inv (scoreStep env self k s) (fun best => best.isSome = true)
        (t.enumFrom 1) (scoreStep env self k s none (0, d))
        (by unfold scoreStep; rfl)
        (fun acc p _ hP => by
          unfold scoreStep
          cases acc with
          | none => rfl
          | some b0 => dsimp only; split <;> rfl)
    obtain ⟨b, hb⟩ := Option.isSome_iff_exists.mp hsome
    exact ⟨b.1, by rw [hb]; rfl⟩

theorem fireAt_fst_target (env : Env) (s : SimState) (self : Drone) (t : TargetRef)
    (c : String) (d : ℚ) : (fireAt env s self t c d).1.target = self.target := by
  rcases fireAt_fst_cases env s self t c d with h | h <;> rw [h]

theorem fireAt_fst_isEngaging (env : Env) (s : SimState) (self : Drone) (t : TargetRef)
    (c : String) (d : ℚ) : (fireAt env s self t c d).1.isEngaging = self.isEngaging := by
  rcases fireAt_fst_cases env s self t c d with h | h <;> rw [h]

/-- The decision tail of the friendly update always re-resolves the target:
entry k of the result either carries no target (empty hostile list) or
targets the id of a member of the hostile list, with the engagement flag set
unconditionally in the latter case. -/
theorem friendlyDecide_target (env : Env) (s : SimState) (k : ℕ) (self : Drone)
    (hk : k < s.friendlies.length) :
    ∃ d, (friendlyDecide env s k self).friendlies.get? k = some d ∧
      ((s.hostiles = [] ∧ d.target = none ∧ d.isEngaging = false) ∨
       (∃ h ∈ s.hostiles, d.target = some h.id ∧ d.isEngaging = true)) := by
  cases hsel : selectTarget env self k s with
  | none =>
    have hnil : s.hostiles = [] := by
      cases hh : s.hostiles with
      | nil => rfl
      | cons a t =>
        obtain ⟨i, hi⟩ := selectTarget_of_ne_nil env self k s (by rw [hh]; simp)
        rw [hsel] at hi
        cases hi
    unfold friendlyDecide
    rw [hsel]
    dsimp only
    simp only [setF_friendlies, setF_assets]
    exact ⟨_, List.get?_set_eq_of_lt _ (by simpa using hk),
      Or.inl ⟨hnil, by simp, by simp⟩⟩
  | some hIdx =>
    obtain ⟨h, hh⟩ := selectTarget_some_mem env self k s hIdx hsel
    have hmem : h ∈ s.hostiles := List.get?_mem hh
    unfold friendlyDecide
    rw [hsel]
    dsimp only
    rw [hh]
    dsimp only
    split
    · split
      · simp only [setF_friendlies, fireAt_hostile_friendlies]
        exact ⟨_, List.get?_set_eq_of_lt _ (by simpa using hk),
          Or.inr ⟨h, hmem, by rw [fireAt_fst_target], by rw [fireAt_fst_isEngaging]⟩⟩
      · simp only [setF_friendlies]
        exact ⟨_, List.get?_set_eq_of_lt _ (by simpa using hk),
          Or.inr ⟨h, hmem, by simp, by simp⟩⟩
    · simp only [setF_friendlies, setF_assets]
      exact ⟨_, List.get?_set_eq_of_lt _ (by simpa using hk),
        Or.inr ⟨h, hmem, by simp, by simp⟩⟩

/-- Normal-path reduction of the friendly update: with communication on and
no lost marks anywhere in the roster, the update of entry k is exactly the
decision tail on some intermediate state whose entry k is synchronized and
whose hostile id list is that of the input state. -/
theorem friendlyUpdateAt_normal (env : Env) (s : SimState) (k : ℕ) (self0 : Drone)
    (hcomm : env.hasCommunication = true)
    (hget : s.friendlies.get? k = some self0)
    (hmarks : ∀ f ∈ s.friendlies, f.lostCoords = none) :
    ∃ (s2 : SimState) (self2 : Drone),
      friendlyUpdateAt env s k = friendlyDecide env s2 k self2 ∧
      s2.friendlies.get? k = some self2 ∧
      idsH s2 = idsH s := by
  obtain ⟨hkl, -⟩ := List.get?_eq_some.mp hget
  have hself0 : self0.lostCoords = none := hmarks self0 (List.get?_mem hget)
  have hmarks1 : ∀ f ∈ (setF s k { self0 with jammingTargets := [] }).friendlies,
      f.lostCoords = none := by
    intro f hf
    rw [setF_friendlies] at hf
    rcases List.mem_or_eq_of_mem_set hf with hmem | heq
    · exact hmarks f hmem
    · rw [heq]
      exact hself0
  have hsync1 : (setF s k { self0 with jammingTargets := [] }).friendlies.get? k
      = some { self0 with jammingTargets := [] } := by
    rw [setF_friendlies]
    exact List.get?_set_eq_of_lt _ (by simpa using hkl)
  unfold friendlyUpdateAt
  rw [hget]
  dsimp only
  rw [if_neg (by simp [hcomm])]
  rw [rescueScan_no_marks k _ _ hmarks1]
  dsimp only
  rw [if_neg (by simp)]
  rcases markLostIfFar_cases (setF s k { self0 with jammingTargets := [] }) k
      { self0 with jammingTargets := [] } with hm | hm <;> rw [hm] <;> dsimp only
  · obtain ⟨hs, hi, -⟩ := jamSweep_inv env k
      (setF s k { self0 with jammingTargets := [] }) { self0 with jammingTargets := [] }
      hsync1
    refine ⟨_, _, rfl, hs, ?_⟩
    rw [hi]
    unfold idsH
    rw [setF_hostiles]
  · have hsync2 : (setF (setF s k { self0 with jammingTargets := [] }) k
        { { self0 with jammingTargets := [] } with
            lostCoords := some ({ self0 with jammingTargets := [] }.x,
              { self0 with jammingTargets := [] }.y) }).friendlies.get? k
        = some { { self0 with jammingTargets := [] } with
            lostCoords := some ({ self0 with jammingTargets := [] }.x,
              { self0 with jammingTargets := [] }.y) } := by
      rw [setF_friendlies]
      exact List.get?_set_eq_of_lt _ (by simp [hkl])
    obtain ⟨hs, hi, -⟩ := jamSweep_inv env k _ _ hsync2
    refine ⟨_, _, rfl, hs, ?_⟩
    rw [hi]
    unfold idsH
    rw [setF_hostiles, setF_hostiles]

/-- C1 counterexample: with communication disabled the friendly update
returns from the autonomous branch before target re-resolution.  After a
full simulation tick the single friendly still holds target "H-9", an id
that belongs to no live hostile either before or after the tick, so the
dangling reference is never cleared. -/
theorem C1_counterexample :
    envOff.hasCommunication = false ∧
    (updateSimulation envOff s1).friendlies.map (fun d => d.target) = [some "H-9"] ∧
    "H-9" ∉ idsH s1 ∧ "H-9" ∉ idsH (updateSimulation envOff s1) := by
  have hF : runFriendlyPass envOff s1 = s1f := by
    norm_num [runFriendlyPass, friendlyUpdateAt, autonomousUpdate, takeRand,
      nearestDronePos, Drone.moveTo, ratSqrt, dist2, setF, envOff, s1, s1f, f1, f1m, h1,
      mkDrone, DRONE_SPEED, List.range, List.foldl, int_toNat_ofNat,
      show ¬(DKind.drone = DKind.bomber) from by decide]
  have hH : runHostilePass envOff s1f = s1h := by
    norm_num [runHostilePass, hostileGuardedStep, hostileUpdateAt, hostileCombat,
      hostileMovement, nearestIdx, Drone.moveTo, ratSqrt, dist2, setH, setF, envOff,
      s1f, s1h, f1, f1m, h1, h1m, mkDrone, FIRING_RANGE, HOSTILE_SPEED, BOMBER_SPEED,
      List.range, List.foldl, List.enum, List.enumFrom, int_toNat_ofNat,
      show ¬(DKind.drone = DKind.bomber) from by decide]
  have hT : updateSimulation envOff s1 = s1h := by
    unfold updateSimulation tickCore
    rw [show clearJamFlags (ageParticles s1) = s1 from rfl, hF, hH]
    rfl
  refine ⟨rfl, ?_, by decide, ?_⟩
  · rw [hT]
    rfl
  · rw [hT]
    decide

/-- C1 (amended): in the connected normal path — communication on and no
lost-coordinate marks in the roster — the friendly update re-resolves entry
k's target reference every tick: the updated drone either carries no target
or the id of a hostile live at the start of its update.  (In autonomous mode
and during a rescue move the update returns early and a stale target can
persist.) -/
theorem C1_amended_target_resolution (env : Env) (s : SimState) (k : ℕ) (self0 : Drone)
    (hcomm : env.hasCommunication = true)
    (hget : s.friendlies.get? k = some self0)
    (hmarks : ∀ f ∈ s.friendlies, f.lostCoords = none) :
    ∃ d, (friendlyUpdateAt env s k).friendlies.get? k = some d ∧
      (d.target = none ∨ ∃ tid, d.target = some tid ∧ tid ∈ idsH s) := by
  obtain ⟨s2, self2, heq, hsync, hids⟩ :=
    friendlyUpdateAt_normal env s k self0 hcomm hget hmarks
  obtain ⟨hk2, -⟩ := List.get?_eq_some.mp hsync
  obtain ⟨d, hd, hcases⟩ := friendlyDecide_target env s2 k self2 hk2
  refine ⟨d, by rw [heq]; exact hd, ?_⟩
  rcases hcases with ⟨-, ht, -⟩ | ⟨h, hmem, ht, -⟩
  · exact Or.inl ht
  · refine Or.inr ⟨h.id, ht, ?_⟩
    rw [← hids]
    unfold idsH
    exact List.mem_map_of_mem _ hmem

/-- C1 witness: the amended target-resolution theorem applied to the
one-friendly one-hostile connected state sOne. -/
theorem C1_amended_target_resolution_witness :
    envOn.hasCommunication = true ∧ sOne.friendlies.get? 0 = some fA ∧
    (∀ f ∈ sOne.friendlies, f.lostCoords = none) ∧
    (∃ d, (friendlyUpdateAt envOn sOne 0).friendlies.get? 0 = some d ∧
      (d.target = none ∨ ∃ tid, d.target = some tid ∧ tid ∈ idsH sOne)) :=
  ⟨rfl, by decide, by decide,
    C1_amended_target_resolution envOn sOne 0 fA rfl (by decide) (by decide)⟩

/-- C2 counterexample: ten friendlies locked on the single non-critical
hostile (no assets, so the critical override is off).  After a full tick all
ten friendlies report isEngaging on it: the 30% cap never limits the
reported isEngaging flag, which target selection sets unconditionally. -/
theorem C2_counterexample :
    s2T.friendlies.length = 10 ∧ s2T.assets = [] ∧
    idsH s2T = ["H-1"] ∧ isCriticalThreat hFar s2T.assets = false ∧
    (∀ f ∈ s2T.friendlies, f.target = some "H-1") ∧
    ((updateSimulation envOn s2T).friendlies.filter (fun d => d.isEngaging)).length = 10 ∧
    ¬(((updateSimulation envOn s2T).friendlies.filter (fun d => d.isEngaging)).length ≤ 3) := by
  have e0 : friendlyUpdateAt envOn (s2Ts 0) 0 = s2Ts 1 := by
    norm_num [friendlyUpdateAt, rescueScan, rescueStep, markLostIfFar,
      jamSweep, friendlyDecide, selectTarget, scoreStep, calculateThreatScore,
      nearestAssetPrio, friendlyBombersExist, isCriticalThreat, minAssetD2, shouldEngage,
      engagementCount, maintainDefensivePosition, assetsCentroid, ratSqrt, dist2,
      setF, envOn, s2Ts, friends10M, friends10T, friends10E, friends10, hFar, mkDrone,
      DRONE_SPEED, THREATENING_RANGE, FIRING_RANGE, List.range, List.foldl, List.enum,
      List.enumFrom, List.filter, List.take, List.drop, int_toNat_ofNat,
      Function.comp, List.map, List.get?,  Option.map, bne, Nat.beq,
      List.length, Option.some.injEq,
      show ¬(DKind.drone = DKind.bomber) from by decide]
  have e1 : friendlyUpdateAt envOn (s2Ts 1) 1 = s2Ts 2 := by
    norm_num [friendlyUpdateAt, rescueScan, rescueStep, markLostIfFar,
      jamSweep, friendlyDecide, selectTarget, scoreStep, calculateThreatScore,
      nearestAssetPrio, friendlyBombersExist, isCriticalThreat, minAssetD2, shouldEngage,
      engagementCount, maintainDefensivePosition, assetsCentroid, ratSqrt, dist2,
      setF, envOn, s2Ts, friends10M, friends10T, friends10E, friends10, hFar, mkDrone,
      DRONE_SPEED, THREATENING_RANGE, FIRING_RANGE, List.range, List.foldl, List.enum,
      List.enumFrom, List.filter, List.take, List.drop, int_toNat_ofNat,
      Function.comp, List.map, List.get?,  Option.map, bne, Nat.beq,
      List.length, Option.some.injEq,
      show ¬(DKind.drone = DKind.bomber) from by decide]
  have e2 : friendlyUpdateAt envOn (s2Ts 2) 2 = s2Ts 3 := by
    norm_num [friendlyUpdateAt, rescueScan, rescueStep, markLostIfFar,
      jamSweep, friendlyDecide, selectTarget, scoreStep, calculateThreatScore,
      nearestAssetPrio, friendlyBombersExist, isCriticalThreat, minAssetD2, shouldEngage,
      engagementCount, maintainDefensivePosition, assetsCentroid, ratSqrt, dist2,
      setF, envOn, s2Ts, friends10M, friends10T, friends10E, friends10, hFar, mkDrone,
      DRONE_SPEED, THREATENING_RANGE, FIRING_RANGE, List.range, List.foldl, List.enum,
      List.enumFrom, List.filter, List.take, List.drop, int_toNat_ofNat,
      Function.comp, List.map, List.get?,  Option.map, bne, Nat.beq,
      List.length, Option.some.injEq,
      show ¬(DKind.drone = DKind.bomber) from by decide]
  have e3 : friendlyUpdateAt envOn (s2Ts 3) 3 = s2Ts 4 := by
    norm_num [friendlyUpdateAt, rescueScan, rescueStep, markLostIfFar,
      jamSweep, friendlyDecide, selectTarget, scoreStep, calculateThreatScore,
      nearestAssetPrio, friendlyBombersExist, isCriticalThreat, minAssetD2, shouldEngage,
      engagementCount, maintainDefensivePosition, assetsCentroid, ratSqrt, dist2,
      setF, envOn, s2Ts, friends10M, friends10T, friends10E, friends10, hFar, mkDrone,
      DRONE_SPEED, THREATENING_RANGE, FIRING_RANGE, List.range, List.foldl, List.enum,
      List.enumFrom, List.filter, List.take, List.drop, int_toNat_ofNat,
      Function.comp, List.map, List.get?,  Option.map, bne, Nat.beq,
      List.length, Option.some.injEq,
      show ¬(DKind.drone = DKind.bomber) from by decide]
  have e4 : friendlyUpdateAt envOn (s2Ts 4) 4 = s2Ts 5 := by
    norm_num [friendlyUpdateAt, rescueScan, rescueStep, markLostIfFar,
      jamSweep, friendlyDecide, selectTarget, scoreStep, calculateThreatScore,
      nearestAssetPrio, friendlyBombersExist, isCriticalThreat, minAssetD2, shouldEngage,
      engagementCount, maintainDefensivePosition, assetsCentroid, ratSqrt, dist2,
      setF, envOn, s2Ts, friends10M, friends10T, friends10E, friends10, hFar, mkDrone,
      DRONE_SPEED, THREATENING_RANGE, FIRING_RANGE, List.range, List.foldl, List.enum,
      List.enumFrom, List.filter, List.take, List.drop, int_toNat_ofNat,
      Function.comp, List.map, List.get?,  Option.map, bne, Nat.beq,
      List.length, Option.some.injEq,
      show ¬(DKind.drone = DKind.bomber) from by decide]
  have e5 : friendlyUpdateAt envOn (s2Ts 5) 5 = s2Ts 6 := by
    norm_num [friendlyUpdateAt, rescueScan, rescueStep, markLostIfFar,
      jamSweep, friendlyDecide, selectTarget, scoreStep, calculateThreatScore,
      nearestAssetPrio, friendlyBombersExist, isCriticalThreat, minAssetD2, shouldEngage,
      engagementCount, maintainDefensivePosition, assetsCentroid, ratSqrt, dist2,
      setF, envOn, s2Ts, friends10M, friends10T, friends10E, friends10, hFar, mkDrone,
      DRONE_SPEED, THREATENING_RANGE, FIRING_RANGE, List.range, List.foldl, List.enum,
      List.enumFrom, List.filter, List.take, List.drop, int_toNat_ofNat,
      Function.comp, List.map, List.get?,  Option.map, bne, Nat.beq,
      List.length, Option.some.injEq,
      show ¬(DKind.drone = DKind.bomber) from by decide]
  have e6 : friendlyUpdateAt envOn (s2Ts 6) 6 = s2Ts 7 := by
    norm_num [friendlyUpdateAt, rescueScan, rescueStep, markLostIfFar,
      jamSweep, friendlyDecide, selectTarget, scoreStep, calculateThreatScore,
      nearestAssetPrio, friendlyBombersExist, isCriticalThreat, minAssetD2, shouldEngage,
      engagementCount, maintainDefensivePosition, assetsCentroid, ratSqrt, dist2,
      setF, envOn, s2Ts, friends10M, friends10T, friends10E, friends10, hFar, mkDrone,
      DRONE_SPEED, THREATENING_RANGE, FIRING_RANGE, List.range, List.foldl, List.enum,
      List.enumFrom, List.filter, List.take, List.drop, int_toNat_ofNat,
      Function.comp, List.map, List.get?,  Option.map, bne, Nat.beq,
      List.length, Option.some.injEq,
      show ¬(DKind.drone = DKind.bomber) from by decide]
  have e7 : friendlyUpdateAt envOn (s2Ts 7) 7 = s2Ts 8 := by
    norm_num [friendlyUpdateAt, rescueScan, rescueStep, markLostIfFar,
      jamSweep, friendlyDecide, selectTarget, scoreStep, calculateThreatScore,
      nearestAssetPrio, friendlyBombersExist, isCriticalThreat, minAssetD2, shouldEngage,
      engagementCount, maintainDefensivePosition, assetsCentroid, ratSqrt, dist2,
      setF, envOn, s2Ts, friends10M, friends10T, friends10E, friends10, hFar, mkDrone,
      DRONE_SPEED, THREATENING_RANGE, FIRING_RANGE, List.range, List.foldl, List.enum,
      List.enumFrom, List.filter, List.take, List.drop, int_toNat_ofNat,
      Function.comp, List.map, List.get?,  Option.map, bne, Nat.beq,
      List.length, Option.some.injEq,
      show ¬(DKind.drone = DKind.bomber) from by decide]
  have e8 : friendlyUpdateAt envOn (s2Ts 8) 8 = s2Ts 9 := by
    norm_num [friendlyUpdateAt, rescueScan, rescueStep, markLostIfFar,
      jamSweep, friendlyDecide, selectTarget, scoreStep, calculateThreatScore,
      nearestAssetPrio, friendlyBombersExist, isCriticalThreat, minAssetD2, shouldEngage,
      engagementCount, maintainDefensivePosition, assetsCentroid, ratSqrt, dist2,
      setF, envOn, s2Ts, friends10M, friends10T, friends10E, friends10, hFar, mkDrone,
      DRONE_SPEED, THREATENING_RANGE, FIRING_RANGE, List.range, List.foldl, List.enum,
      List.enumFrom, List.filter, List.take, List.drop, int_toNat_ofNat,
      Function.comp, List.map, List.get?,  Option.map, bne, Nat.beq,
      List.length, Option.some.injEq,
      show ¬(DKind.drone = DKind.bomber) from by decide]
  have e9 : friendlyUpdateAt envOn (s2Ts 9) 9 = s2Ts 10 := by
    norm_num [friendlyUpdateAt, rescueScan, rescueStep, markLostIfFar,
      jamSweep, friendlyDecide, selectTarget, scoreStep, calculateThreatScore,
      nearestAssetPrio, friendlyBombersExist, isCriticalThreat, minAssetD2, shouldEngage,
      engagementCount, maintainDefensivePosition, assetsCentroid, ratSqrt, dist2,
      setF, envOn, s2Ts, friends10M, friends10T, friends10E, friends10, hFar, mkDrone,
      DRONE_SPEED, THREATENING_RANGE, FIRING_RANGE, List.range, List.foldl, List.enum,
      List.enumFrom, List.filter, List.take, List.drop, int_toNat_ofNat,
      Function.comp, List.map, List.get?,  Option.map, bne, Nat.beq,
      List.length, Option.some.injEq,
      show ¬(DKind.drone = DKind.bomber) from by decide]
  have hF : runFriendlyPass envOn s2T = s2TF := by
    unfold runFriendlyPass
    rw [show s2T.friendlies.length = 10 from by decide,
      show List.range 10 = [0,1,2,3,4,5,6,7,8,9] from by decide,
      show s2T = s2Ts 0 from rfl]
    simp only [List.foldl_cons, List.foldl_nil]
    rw [e0, e1, e2, e3, e4, e5, e6, e7, e8, e9]
    rfl
  have hH : runHostilePass envOn s2TF = s2TH := by
    norm_num [runHostilePass, hostileGuardedStep, hostileUpdateAt, hostileCombat,
      hostileMovement, nearestIdx, Drone.moveTo, ratSqrt, dist2, setH, setF, envOn,
      s2TF, s2TH, friends10E, friends10, hFar, hFarM, mkDrone, FIRING_RANGE,
      HOSTILE_SPEED, BOMBER_SPEED, List.range, List.foldl, List.enum, List.enumFrom,
      int_toNat_ofNat, Function.comp, List.map, List.get?, Option.map, bne, Nat.beq,
      List.length, show ¬(DKind.drone = DKind.bomber) from by decide]
  have hT : updateSimulation envOn s2T = s2TH := by
    unfold updateSimulation tickCore
    rw [show clearJamFlags (ageParticles s2T) = s2T from rfl, hF, hH]
    rfl
  refine ⟨by decide, rfl, by decide, rfl, by decide, ?_, ?_⟩
  · rw [hT]
    decide
  · rw [hT]
    decide

/-- C2 (amended): (1) the reported isEngaging flag is not capped — in the
connected normal path any friendly updating against a nonempty hostile list
reports isEngaging after its update; (2) the 30% cap gates the behavioural
choice only: with a roster of 10, a drone beyond the 200-unit close-range
override whose target already has at least 3 other engagers gets
shouldEngage = false; (3) the critical override: when the selected hostile
is within threatening range of an asset and beyond firing range, the drone
closes on it regardless of the cap. -/
theorem C2_amended_saturation :
    (∀ (env : Env) (s : SimState) (k : ℕ) (self0 : Drone),
      env.hasCommunication = true →
      s.friendlies.get? k = some self0 →
      (∀ f ∈ s.friendlies, f.lostCoords = none) →
      s.hostiles ≠ [] →
      ∃ d, (friendlyUpdateAt env s k).friendlies.get? k = some d ∧
        d.isEngaging = true) ∧
    (∀ (self : Drone) (k : ℕ) (h : Drone) (fl : List Drone),
      fl.length = 10 →
      ¬(dist2 self.x self.y h.x h.y < 200 * 200) →
      3 ≤ engagementCount k h.id fl →
      shouldEngage self k h fl = false) ∧
    (∀ (env : Env) (s : SimState) (k : ℕ) (self : Drone) (hIdx : ℕ) (h : Drone),
      k < s.friendlies.length →
      selectTarget env self k s = some hIdx →
      s.hostiles.get? hIdx = some h →
      isCriticalThreat h s.assets = true →
      ¬(dist2 self.x self.y h.x h.y ≤ FIRING_RANGE * FIRING_RANGE) →
      (friendlyDecide env s k self).friendlies.get? k
        = some (Drone.moveTo { self with target := some h.id, isEngaging := true }
            h.x h.y DRONE_SPEED)) := by
  refine ⟨?_, ?_, ?_⟩
  · intro env s k self0 hcomm hget hmarks hne
    obtain ⟨s2, self2, heq, hsync, hids⟩ :=
      friendlyUpdateAt_normal env s k self0 hcomm hget hmarks
    obtain ⟨hk2, -⟩ := List.get?_eq_some.mp hsync
    have hne2 : s2.hostiles ≠ [] := by
      intro h0
      have hlen : s2.hostiles.length = s.hostiles.length := by
        have hl := congrArg List.length hids
        unfold idsH at hl
        simpa using hl
      rw [h0] at hlen
      exact hne (List.length_eq_zero.mp hlen.symm)
    obtain ⟨d, hd, hcases⟩ := friendlyDecide_target env s2 k self2 hk2
    refine ⟨d, by rw [heq]; exact hd, ?_⟩
    rcases hcases with ⟨hnil, -, -⟩ | ⟨h, -, -, he⟩
    · exact absurd hnil hne2
    · exact he
  · intro self k h fl hlen hfar hcount
    unfold shouldEngage
    dsimp only
    have h1 : decide (dist2 self.x self.y h.x h.y < 200 * 200) = false :=
      decide_eq_false hfar
    have h2 : decide ((engagementCount k h.id fl : ℚ) / (fl.length : ℚ) < 0.3) = false := by
      apply decide_eq_false
      rw [not_lt, hlen]
      have h3 : (3:ℚ) ≤ (engagementCount k h.id fl : ℚ) := by exact_mod_cast hcount
      rw [show ((10:ℕ):ℚ) = 10 from by norm_num, le_div_iff (by norm_num : (0:ℚ) < 10)]
      linarith
    rw [h1, h2]
    rfl
  · intro env s k self hIdx h hk hsel hh hcrit hfar
    unfold friendlyDecide
    rw [hsel]
    dsimp only
    rw [hh]
    dsimp only
    rw [setF_assets, hcrit]
    simp only [Bool.true_or, if_true]
    rw [if_neg hfar]
    simp only [setF_friendlies]
    exact List.get?_set_eq_of_lt _ (by simpa using hk)

/-- C2 witness: the three parts of the amended saturation theorem at the
states sOne (flag always set), friends10T (cap active at distance 1000 with
nine other engagers) and sC (critical override beyond firing range). -/
theorem C2_amended_saturation_witness :
    (envOn.hasCommunication = true ∧ sOne.friendlies.get? 0 = some fA ∧
      (∀ f ∈ sOne.friendlies, f.lostCoords = none) ∧ sOne.hostiles ≠ [] ∧
      ∃ d, (friendlyUpdateAt envOn sOne 0).friendlies.get? 0 = some d ∧
        d.isEngaging = true) ∧
    (friends10T.length = 10 ∧
      ¬(dist2 fA.x fA.y hFar.x hFar.y < 200 * 200) ∧
      3 ≤ engagementCount 0 hFar.id friends10T ∧
      shouldEngage fA 0 hFar friends10T = false) ∧
    (0 < sC.friendlies.length ∧ selectTarget envOn fFar 0 sC = some 0 ∧
      sC.hostiles.get? 0 = some hN ∧ isCriticalThreat hN sC.assets = true ∧
      ¬(dist2 fFar.x fFar.y hN.x hN.y ≤ FIRING_RANGE * FIRING_RANGE) ∧
      (friendlyDecide envOn sC 0 fFar).friendlies.get? 0
        = some (Drone.moveTo { fFar with target := some hN.id, isEngaging := true }
            hN.x hN.y DRONE_SPEED)) := by
  have hfar1 : ¬(dist2 fA.x fA.y hFar.x hFar.y < 200 * 200) := by
    norm_num [dist2, fA, hFar, mkDrone]
  have hcrit : isCriticalThreat hN sC.assets = true := by
    norm_num [isCriticalThreat, minAssetD2, dist2, sC, hN, aN, mkDrone,
      THREATENING_RANGE]
  have hfar2 : ¬(dist2 fFar.x fFar.y hN.x hN.y ≤ FIRING_RANGE * FIRING_RANGE) := by
    norm_num [dist2, fFar, hN, mkDrone, FIRING_RANGE]
  exact ⟨⟨rfl, by decide, by decide, by decide,
      C2_amended_saturation.1 envOn sOne 0 fA rfl (by decide) (by decide) (by decide)⟩,
    ⟨by decide, hfar1, by decide,
      C2_amended_saturation.2.1 fA 0 hFar friends10T (by decide) hfar1 (by decide)⟩,
    ⟨by decide, rfl, by decide, hcrit, hfar2,
      C2_amended_saturation.2.2 envOn sC 0 fFar 0 hN (by decide) rfl (by decide)
        hcrit hfar2⟩⟩

/- Health-monotonicity toolkit: pointwise non-increase of the three health
columns through every mutation of the engine. -/

theorem healthsLe_refl (s : SimState) : healthsLe s s :=
  ⟨forall2_le_refl _, forall2_le_refl _, forall2_le_refl _⟩

theorem healthsLe_trans {a b c : SimState} (h1 : healthsLe a b) (h2 : healthsLe b c) :
    healthsLe a c :=
  ⟨forall2_le_trans h1.1 h2.1, forall2_le_trans h1.2.1 h2.2.1,
    forall2_le_trans h1.2.2 h2.2.2⟩

theorem healthsLe_of_eq {s t : SimState} (hf : healthsF s = healthsF t)
    (hh : s.hostiles = t.hostiles) (ha : s.assets = t.assets) : healthsLe s t := by
  refine ⟨?_, ?_, ?_⟩
  · rw [hf]
    exact forall2_le_refl _
  · unfold healthsH
    rw [hh]
    exact forall2_le_refl _
  · unfold healthsA
    rw [ha]
    exact forall2_le_refl _

theorem healthsF_setF (s : SimState) (k : ℕ) (d : Drone) :
    healthsF (setF s k d) = (healthsF s).set k d.health := by
  unfold healthsF
  rw [setF_friendlies, map_set_comm]

theorem healthsH_setH (s : SimState) (k : ℕ) (d : Drone) :
    healthsH (setH s k d) = (healthsH s).set k d.health := by
  unfold healthsH
  rw [setH_hostiles, map_set_comm]

theorem healthsA_setA (s : SimState) (k : ℕ) (a : Asset) :
    healthsA (setA s k a) = (healthsA s).set k a.health := by
  unfold healthsA
  rw [setA_assets, map_set_comm]

theorem healthsLe_setF (s : SimState) (k : ℕ) (d : Drone)
    (h : ∀ d0, s.friendlies.get? k = some d0 → d.health ≤ d0.health) :
    healthsLe (setF s k d) s := by
  refine ⟨?_, forall2_le_refl _, forall2_le_refl _⟩
  rw [healthsF_setF]
  apply forall2_le_set
  intro y hy
  unfold healthsF at hy
  rw [List.get?_map] at hy
  obtain ⟨d0, hd0, hmap⟩ := Option.map_eq_some'.mp hy
  rw [← hmap]
  exact h d0 hd0

theorem healthsLe_setH (s : SimState) (k : ℕ) (d : Drone)
    (h : ∀ d0, s.hostiles.get? k = some d0 → d.health ≤ d0.health) :
    healthsLe (setH s k d) s := by
  refine ⟨forall2_le_refl _, ?_, forall2_le_refl _⟩
  rw [healthsH_setH]
  apply forall2_le_set
  intro y hy
  unfold healthsH at hy
  rw [List.get?_map] at hy
  obtain ⟨d0, hd0, hmap⟩ := Option.map_eq_some'.mp hy
  rw [← hmap]
  exact h d0 hd0

theorem healthsLe_setA (s : SimState) (k : ℕ) (a : Asset)
    (h : ∀ a0, s.assets.get? k = some a0 → a.health ≤ a0.health) :
    healthsLe (setA s k a) s := by
  refine ⟨forall2_le_refl _, forall2_le_refl _, ?_⟩
  rw [healthsA_setA]
  apply forall2_le_set
  intro y hy
  unfold healthsA at hy
  rw [List.get?_map] at hy
  obtain ⟨a0, ha0, hmap⟩ := Option.map_eq_some'.mp hy
  rw [← hmap]
  exact h a0 ha0

theorem healthsLe_setF_entry (s s2 : SimState) (k : ℕ) (d1 d2 : Drone)
    (hfr : s2.friendlies = (setF s k d1).friendlies)
    (hh : d2.health ≤ d1.health) : healthsLe (setF s2 k d2) s2 := by
  apply healthsLe_setF
  intro d0 hd0
  rw [hfr, setF_friendlies] at hd0
  obtain ⟨hlt, -⟩ := List.get?_eq_some.mp hd0
  rw [List.get?_set_eq_of_lt _ (by simpa using hlt)] at hd0
  cases hd0
  exact hh

theorem healthsLe_setH_entry (s s2 : SimState) (k : ℕ) (d1 d2 : Drone)
    (hfr : s2.hostiles = (setH s k d1).hostiles)
    (hh : d2.health ≤ d1.health) : healthsLe (setH s2 k d2) s2 := by
  apply healthsLe_setH
  intro d0 hd0
  rw [hfr, setH_hostiles] at hd0
  obtain ⟨hlt, -⟩ := List.get?_eq_some.mp hd0
  rw [List.get?_set_eq_of_lt _ (by simpa using hlt)] at hd0
  cases hd0
  exact hh

theorem damageTarget_healthsLe (s : SimState) (t : TargetRef) (dmg : ℚ)
    (hd : 0 ≤ dmg) : healthsLe (damageTarget s t dmg) s := by
  unfold damageTarget
  cases t with
  | friendly i =>
    dsimp only
    cases hg : s.friendlies.get? i with
    | none => exact healthsLe_refl s
    | some d =>
      apply healthsLe_setF
      intro d0 hd0
      rw [hg] at hd0
      cases hd0
      exact sub_le_self _ hd
  | hostile i =>
    dsimp only
    cases hg : s.hostiles.get? i with
    | none => exact healthsLe_refl s
    | some d =>
      apply healthsLe_setH
      intro d0 hd0
      rw [hg] at hd0
      cases hd0
      exact sub_le_self _ hd
  | asset i =>
    dsimp only
    cases hg : s.assets.get? i with
    | none => exact healthsLe_refl s
    | some a =>
      apply healthsLe_setA
      intro a0 ha0
      rw [hg] at ha0
      cases ha0
      exact sub_le_self _ hd

theorem hitParticle_healthsLe (env : Env) (s : SimState) (tx ty : ℚ) (c : String) :
    healthsLe (hitParticle env s tx ty c) s :=
  healthsLe_of_eq (by unfold healthsF; rw [hitParticle_friendlies])
    (hitParticle_hostiles env s tx ty c) (hitParticle_assets env s tx ty c)

theorem fireAt_snd_healthsLe (env : Env) (s : SimState) (self : Drone) (t : TargetRef)
    (c : String) (dmg : ℚ) (hd : 0 ≤ dmg) :
    healthsLe (fireAt env s self t c dmg).2 s := by
  unfold fireAt
  dsimp only
  split
  · exact healthsLe_refl s
  · exact healthsLe_trans (hitParticle_healthsLe _ _ _ _ _)
      (healthsLe_trans (hitParticle_healthsLe _ _ _ _ _)
        (damageTarget_healthsLe s t dmg hd))

theorem fireAt_fst_health (env : Env) (s : SimState) (self : Drone) (t : TargetRef)
    (c : String) (d : ℚ) : (fireAt env s self t c d).1.health = self.health := by
  rcases fireAt_fst_cases env s self t c d with h | h <;> rw [h]

end SkyGuard
